import Mathlib

/-!
# Countdown stopwatch on a four-digit seven-segment display

A shallow embedding of `Core/Src/sevenseg4.c` and `Core/Src/stopwatch.c`.

* The module-level `static` variables of each file become the fields of a
  structure (`SevenSeg4`, `Stopwatch`) that every function takes and returns.
* `uint16_t` and `uint8_t` values are natural numbers; an increment or
  decrement is written with the explicit reduction modulo `2^16` (`u16`).
* The GPIO output lines written through `HAL_GPIO_WritePin` are fields of the
  state holding the level last written.  The button level obtained through
  `HAL_GPIO_ReadPin` is an argument of `Stopwatch_Tick1ms`.
* The two interrupt handlers run to completion, so an execution is a sequence
  of calls.
-/

namespace NucleoStopwatch

/-! ## HAL pin levels -/

/-- Level of a GPIO line, as in the HAL (`GPIO_PIN_RESET = 0`, `GPIO_PIN_SET = 1`). -/
inductive GPIO_PinState where
  | GPIO_PIN_RESET
  | GPIO_PIN_SET
  deriving DecidableEq, Repr

open GPIO_PinState

/-- Conversion to `uint16_t`: the value modulo `2^16`.  `x++` on a `uint16_t`
is `u16 (x + 1)` and `x--` is `u16 (x + 65535)`. -/
def u16 (n : Nat) : Nat := n % 65536

/-! ## sevenseg4.h / sevenseg4.c -/

/-- The blank sentinel `SEVENSEG4_BLANK` (`0xFFFFu`). -/
def SEVENSEG4_BLANK : Nat := 0xFFFF

/-- Segment look-up table: index 0 is OFF, indices 1..10 are the digits 0..9. -/
def seg_lut : List Nat :=
  [ 0b00000000, -- OFF
    0b00111111, -- 0
    0b00000110, -- 1
    0b01011011, -- 2
    0b01001111, -- 3
    0b01100110, -- 4
    0b01101101, -- 5
    0b01111101, -- 6
    0b00000111, -- 7
    0b01111111, -- 8
    0b01101111  -- 9
  ]

/-- The array `uint8_t disp_buf[4]`. -/
structure DispBuf where
  b0 : Nat
  b1 : Nat
  b2 : Nat
  b3 : Nat
  deriving DecidableEq, Repr

/-- Read of `disp_buf[i]`; the driver only reads with `i` in `0..3`. -/
def DispBuf.get (b : DispBuf) (i : Nat) : Nat :=
  match i with
  | 0 => b.b0
  | 1 => b.b1
  | 2 => b.b2
  | 3 => b.b3
  | _ => 0

/-- State of the display driver: its three `static` variables and the twelve
output lines it drives (digit enables PC0..PC3, segments PB0, PB1, PB2, PB4,
PB5, PB6, PB7, PB8). -/
structure SevenSeg4 where
  g_disp_tenths : Nat
  disp_buf : DispBuf
  scan_idx : Nat
  pc0 : GPIO_PinState
  pc1 : GPIO_PinState
  pc2 : GPIO_PinState
  pc3 : GPIO_PinState
  pb0 : GPIO_PinState
  pb1 : GPIO_PinState
  pb2 : GPIO_PinState
  pb4 : GPIO_PinState
  pb5 : GPIO_PinState
  pb6 : GPIO_PinState
  pb7 : GPIO_PinState
  pb8 : GPIO_PinState
  deriving DecidableEq, Repr

/-- Common anode: digit OFF = LOW on the four digit lines. -/
def digits_all_off (d : SevenSeg4) : SevenSeg4 :=
  { d with pc0 := GPIO_PIN_RESET, pc1 := GPIO_PIN_RESET,
           pc2 := GPIO_PIN_RESET, pc3 := GPIO_PIN_RESET }

/-- Common anode: digit ON = HIGH on line `idx`; any other index does nothing. -/
def digit_on (idx : Nat) (d : SevenSeg4) : SevenSeg4 :=
  match idx with
  | 0 => { d with pc0 := GPIO_PIN_SET }
  | 1 => { d with pc1 := GPIO_PIN_SET }
  | 2 => { d with pc2 := GPIO_PIN_SET }
  | 3 => { d with pc3 := GPIO_PIN_SET }
  | _ => d

/-- Segment OFF = HIGH on all eight segment lines. -/
def set_segments_all_off (d : SevenSeg4) : SevenSeg4 :=
  { d with pb0 := GPIO_PIN_SET, pb1 := GPIO_PIN_SET, pb2 := GPIO_PIN_SET,
           pb4 := GPIO_PIN_SET, pb5 := GPIO_PIN_SET, pb6 := GPIO_PIN_SET,
           pb7 := GPIO_PIN_SET, pb8 := GPIO_PIN_SET }

/-- The level written for one segment: `(pat & mask) ? GPIO_PIN_RESET : GPIO_PIN_SET`. -/
def seg_level (pat mask : Nat) : GPIO_PinState :=
  if pat &&& mask ≠ 0 then GPIO_PIN_RESET else GPIO_PIN_SET

/-- Pattern bit 1 drives the segment line LOW (lit), bit 0 drives it HIGH. -/
def set_segments_from_pattern (pat : Nat) (d : SevenSeg4) : SevenSeg4 :=
  { d with pb0 := seg_level pat 0x01, pb1 := seg_level pat 0x02,
           pb2 := seg_level pat 0x04, pb4 := seg_level pat 0x08,
           pb5 := seg_level pat 0x10, pb6 := seg_level pat 0x20,
           pb7 := seg_level pat 0x40, pb8 := seg_level pat 0x80 }

/-- One multiplex step: digits off, segments off, segments of the digit under
the cursor, enable that digit, advance the cursor. -/
def display_scan_step (d : SevenSeg4) : SevenSeg4 :=
  let d1 := digits_all_off d
  let d2 := set_segments_all_off d1
  let d3 := set_segments_from_pattern (d2.disp_buf.get d2.scan_idx) d2
  let d4 := digit_on d3.scan_idx d3
  { d4 with scan_idx := (d4.scan_idx + 1) &&& 0x03 }

/-- Format `t` as `HSS.s` into the frame buffer. -/
def update_display_from_tenths (t : Nat) (d : SevenSeg4) : SevenSeg4 :=
  let hundreds := (t / 1000) % 10
  let tens := (t / 100) % 10
  let ones := (t / 10) % 10
  let tenths := t % 10
  { d with disp_buf :=
      { b0 := seg_lut.getD (hundreds + 1) 0
        b1 := seg_lut.getD (tens + 1) 0
        b2 := seg_lut.getD (ones + 1) 0 ||| 0x80
        b3 := seg_lut.getD (tenths + 1) 0 } }

/-- Function `SevenSeg4_Init` (sevenseg4.c, lines 119-130). -/
def SevenSeg4_Init (d : SevenSeg4) : SevenSeg4 :=
  let d1 := { d with scan_idx := 0 }
  let d2 := { d1 with g_disp_tenths := 1000 }
  let d3 := digits_all_off d2
  let d4 := set_segments_all_off d3
  update_display_from_tenths d4.g_disp_tenths d4

/-- Function `SevenSeg4_SetTenths` (sevenseg4.c, lines 132-142). -/
def SevenSeg4_SetTenths (tenths : Nat) (d : SevenSeg4) : SevenSeg4 :=
  if tenths = SEVENSEG4_BLANK then
    { d with g_disp_tenths := SEVENSEG4_BLANK }
  else
    let tenths := if tenths > 1000 then 1000 else tenths
    { d with g_disp_tenths := tenths }

/-- Function `SevenSeg4_Tick1ms` (sevenseg4.c, lines 145-165): rebuild the buffer
at cursor 0, then one scan step. -/
def SevenSeg4_Tick1ms (d : SevenSeg4) : SevenSeg4 :=
  let d1 :=
    if d.scan_idx = 0 then
      if d.g_disp_tenths = SEVENSEG4_BLANK then
        { d with disp_buf :=
            { b0 := seg_lut.getD 0 0, b1 := seg_lut.getD 0 0,
              b2 := seg_lut.getD 0 0, b3 := seg_lut.getD 0 0 } }
      else
        update_display_from_tenths d.g_disp_tenths d
    else d
  display_scan_step d1

/-! ## stopwatch.h / stopwatch.c -/

/-- The enumeration `StopwatchState`. -/
inductive StopwatchState where
  | SW_IDLE_PAUSED
  | SW_RUNNING
  | SW_PAUSED
  | SW_DONE
  deriving DecidableEq, Repr

open StopwatchState

/-- Hold time of a long press, `LONGPRESS_MS` (`1500u`). -/
def LONGPRESS_MS : Nat := 1500

/-- Length of the DONE beep, `DONE_BEEP_MS` (`1000u`). -/
def DONE_BEEP_MS : Nat := 1000

/-- Milliseconds per tenth, `TENTH_STEP_MS` (`100u`). -/
def TENTH_STEP_MS : Nat := 100

/-- Half period of the pause blink, `PAUSE_BLINK_MS` (`500u`). -/
def PAUSE_BLINK_MS : Nat := 500

/-- State of the stopwatch module: its `static` variables, the buzzer line PA6
and the display driver it calls into. -/
structure Stopwatch where
  g_state : StopwatchState
  g_tenths : Nat
  g_ms_accum : Nat
  g_btn_tracking : Nat
  g_long_fired : Nat
  g_hold_ms : Nat
  g_done_latched : Nat
  g_buz_remain_ms : Nat
  g_pause_blink_ms : Nat
  g_pause_show : Nat
  pa6 : GPIO_PinState
  disp : SevenSeg4
  deriving DecidableEq, Repr

/-- Buzzer OFF = PA6 LOW. -/
def buzzer_off (s : Stopwatch) : Stopwatch :=
  { s with pa6 := GPIO_PIN_RESET }

/-- Buzzer ON = PA6 HIGH. -/
def buzzer_on (s : Stopwatch) : Stopwatch :=
  { s with pa6 := GPIO_PIN_SET }

/-- Function `buzzer_beep_start` (stopwatch.c, lines 62-69). -/
def buzzer_beep_start (duration_ms : Nat) (s : Stopwatch) : Stopwatch :=
  if duration_ms = 0 then s
  else buzzer_on { s with g_buz_remain_ms := duration_ms }

/-- Function `buzzer_tick_1ms` (stopwatch.c, lines 71-80). -/
def buzzer_tick_1ms (s : Stopwatch) : Stopwatch :=
  if s.g_buz_remain_ms = 0 then s
  else
    let s1 := { s with g_buz_remain_ms := u16 (s.g_buz_remain_ms + 65535) }
    if s1.g_buz_remain_ms = 0 then buzzer_off s1 else s1

/-- Function `reset_to_startup` (stopwatch.c, lines 82-101). -/
def reset_to_startup (s : Stopwatch) : Stopwatch :=
  let s1 := { s with g_state := SW_IDLE_PAUSED, g_tenths := 1000, g_ms_accum := 0 }
  let s2 := { s1 with g_pause_blink_ms := 0, g_pause_show := 1 }
  let s3 := { s2 with g_done_latched := 0 }
  let s4 := buzzer_off { s3 with g_buz_remain_ms := 0 }
  { s4 with disp := SevenSeg4_SetTenths s4.g_tenths s4.disp }

/-- Function `short_press_toggle` (stopwatch.c, lines 103-113). -/
def short_press_toggle (s : Stopwatch) : Stopwatch :=
  if s.g_state = SW_DONE then s
  else if s.g_state = SW_RUNNING then { s with g_state := SW_PAUSED }
  else { s with g_state := SW_RUNNING }

/-- Function `Stopwatch_Init` (stopwatch.c, lines 118-123). -/
def Stopwatch_Init (s : Stopwatch) : Stopwatch :=
  reset_to_startup (buzzer_off s)

/-- Function `Stopwatch_ButtonEdgePress` (stopwatch.c, lines 125-132). -/
def Stopwatch_ButtonEdgePress (s : Stopwatch) : Stopwatch :=
  { s with g_btn_tracking := 1, g_long_fired := 0, g_hold_ms := 0 }

/-- Block 1 of `Stopwatch_Tick1ms` (stopwatch.c, lines 140-167): long-press
detection while tracking.  `level` is the value read from the button pin. -/
def tick_long_press (level : GPIO_PinState) (s : Stopwatch) : Stopwatch :=
  if s.g_btn_tracking ≠ 0 then
    if level = GPIO_PIN_RESET then
      let s1 := if s.g_hold_ms < 0xFFFF
                then { s with g_hold_ms := u16 (s.g_hold_ms + 1) } else s
      if s1.g_long_fired = 0 ∧ s1.g_hold_ms ≥ LONGPRESS_MS then
        reset_to_startup { s1 with g_long_fired := 1 }
      else s1
    else
      let s1 := { s with g_btn_tracking := 0 }
      if s1.g_long_fired = 0 then short_press_toggle s1 else s1
  else s

/-- Block "pause blinking" of `Stopwatch_Tick1ms` (stopwatch.c, lines 169-191). -/
def tick_pause_blink (s : Stopwatch) : Stopwatch :=
  if s.g_state = SW_PAUSED then
    let s1 := if s.g_pause_blink_ms < 0xFFFF
              then { s with g_pause_blink_ms := u16 (s.g_pause_blink_ms + 1) } else s
    let s2 := if s1.g_pause_blink_ms ≥ PAUSE_BLINK_MS
              then { s1 with g_pause_blink_ms := 0,
                             g_pause_show := if s1.g_pause_show ≠ 0 then 0 else 1 }
              else s1
    if s2.g_pause_show ≠ 0 then
      { s2 with disp := SevenSeg4_SetTenths s2.g_tenths s2.disp }
    else
      { s2 with disp := SevenSeg4_SetTenths SEVENSEG4_BLANK s2.disp }
  else
    let s1 := { s with g_pause_blink_ms := 0, g_pause_show := 1 }
    { s1 with disp := SevenSeg4_SetTenths s1.g_tenths s1.disp }

/-- Block 2 of `Stopwatch_Tick1ms` (stopwatch.c, lines 194-226): timekeeping,
only when RUNNING.  `accum` and `tenths` are the values of `g_ms_accum` after
`g_ms_accum++` and of `g_tenths` after `g_tenths--`. -/
def tick_timekeeping (s : Stopwatch) : Stopwatch :=
  if s.g_state = SW_RUNNING then
    if s.g_tenths > 0 then
      let accum := u16 (s.g_ms_accum + 1)
      if accum ≥ TENTH_STEP_MS then
        let tenths := u16 (s.g_tenths + 65535)
        let s1 := { s with g_ms_accum := 0, g_tenths := tenths,
                           disp := SevenSeg4_SetTenths tenths s.disp }
        if tenths = 0 then
          if s.g_done_latched = 0 then
            buzzer_beep_start DONE_BEEP_MS
              { s1 with g_state := SW_DONE, g_done_latched := 1 }
          else { s1 with g_state := SW_DONE }
        else s1
      else { s with g_ms_accum := accum }
    else s
  else
    { s with g_ms_accum := 0 }

/-- Function `Stopwatch_Tick1ms` (stopwatch.c, lines 134-227): buzzer timing,
long-press detection, pause blinking, timekeeping, in this order. -/
def Stopwatch_Tick1ms (level : GPIO_PinState) (s : Stopwatch) : Stopwatch :=
  tick_timekeeping (tick_pause_blink (tick_long_press level (buzzer_tick_1ms s)))

/-- Function `Stopwatch_GetState`. -/
def Stopwatch_GetState (s : Stopwatch) : StopwatchState := s.g_state

/-- Function `Stopwatch_GetTenths`. -/
def Stopwatch_GetTenths (s : Stopwatch) : Nat := s.g_tenths

/-! ## Executions -/

/-- Values of the `static` initialisers of both files, with every output line
low: the state in which `main` starts. -/
def boot : Stopwatch :=
  { g_state := SW_IDLE_PAUSED, g_tenths := 1000, g_ms_accum := 0,
    g_btn_tracking := 0, g_long_fired := 0, g_hold_ms := 0,
    g_done_latched := 0, g_buz_remain_ms := 0,
    g_pause_blink_ms := 0, g_pause_show := 1,
    pa6 := GPIO_PIN_RESET,
    disp :=
      { g_disp_tenths := 1000, disp_buf := { b0 := 0, b1 := 0, b2 := 0, b3 := 0 },
        scan_idx := 0,
        pc0 := GPIO_PIN_RESET, pc1 := GPIO_PIN_RESET, pc2 := GPIO_PIN_RESET,
        pc3 := GPIO_PIN_RESET, pb0 := GPIO_PIN_RESET, pb1 := GPIO_PIN_RESET,
        pb2 := GPIO_PIN_RESET, pb4 := GPIO_PIN_RESET, pb5 := GPIO_PIN_RESET,
        pb6 := GPIO_PIN_RESET, pb7 := GPIO_PIN_RESET, pb8 := GPIO_PIN_RESET } }

/-- Every variable holds a value of its C type (`uint16_t` below `2^16`,
`uint8_t` below `2^8`). -/
def WellTyped (s : Stopwatch) : Prop :=
  s.g_tenths < 65536 ∧ s.g_ms_accum < 65536 ∧ s.g_btn_tracking < 256 ∧
  s.g_long_fired < 256 ∧ s.g_hold_ms < 65536 ∧ s.g_done_latched < 256 ∧
  s.g_buz_remain_ms < 65536 ∧ s.g_pause_blink_ms < 65536 ∧ s.g_pause_show < 256 ∧
  s.disp.g_disp_tenths < 65536 ∧ s.disp.scan_idx < 256 ∧
  s.disp.disp_buf.b0 < 256 ∧ s.disp.disp_buf.b1 < 256 ∧
  s.disp.disp_buf.b2 < 256 ∧ s.disp.disp_buf.b3 < 256

instance (s : Stopwatch) : Decidable (WellTyped s) := by
  unfold WellTyped; infer_instance

/-- The calls the surrounding firmware makes: the 1 ms stopwatch tick (with the
button level it reads), the debounced press edge, and the 1 ms display tick. -/
inductive Event where
  | tick (level : GPIO_PinState)
  | edgePress
  | scan
  deriving DecidableEq, Repr

/-- Effect of one call. -/
def step (e : Event) (s : Stopwatch) : Stopwatch :=
  match e with
  | .tick level => Stopwatch_Tick1ms level s
  | .edgePress => Stopwatch_ButtonEdgePress s
  | .scan => { s with disp := SevenSeg4_Tick1ms s.disp }

/-- Effect of a sequence of calls, first call first. -/
def run (es : List Event) (s : Stopwatch) : Stopwatch :=
  match es with
  | [] => s
  | e :: rest => run rest (step e s)

/-- Number of stopwatch ticks in a sequence of calls. -/
def tickCount (es : List Event) : Nat :=
  match es with
  | [] => 0
  | .tick _ :: rest => tickCount rest + 1
  | _ :: rest => tickCount rest

/-- State after `n` consecutive stopwatch ticks with no other call in between;
tick number `i + 1` reads the button level `lv i`. -/
def tickSeq (lv : Nat → GPIO_PinState) (n : Nat) (s : Stopwatch) : Stopwatch :=
  match n with
  | 0 => s
  | k + 1 => Stopwatch_Tick1ms (lv k) (tickSeq lv k s)

/-- States reachable from `Stopwatch_Init` (called in any well-typed state) by
any sequence of calls. -/
inductive Reachable : Stopwatch → Prop where
  | init (s0 : Stopwatch) : WellTyped s0 → Reachable (Stopwatch_Init s0)
  | step (e : Event) (s : Stopwatch) : Reachable s → Reachable (step e s)

/-- The tick started in `s` with button level `level` runs the long-press
branch of `Stopwatch_Tick1ms` (the call of `reset_to_startup`): a press is tracked, the
pin reads pressed, the long press has not fired and the hold counter, after
its saturating increment, is at least `LONGPRESS_MS`. -/
def longPressFires (level : GPIO_PinState) (s : Stopwatch) : Prop :=
  s.g_btn_tracking ≠ 0 ∧ level = GPIO_PIN_RESET ∧ s.g_long_fired = 0 ∧
  LONGPRESS_MS ≤ (if s.g_hold_ms < 0xFFFF then u16 (s.g_hold_ms + 1) else s.g_hold_ms)

instance (level : GPIO_PinState) (s : Stopwatch) : Decidable (longPressFires level s) := by
  unfold longPressFires; infer_instance

/-- The tick started in `s` with button level `level` runs the release branch
and calls `short_press_toggle`: a press is tracked, the pin reads released and
the long press has not fired. -/
def shortPressFires (level : GPIO_PinState) (s : Stopwatch) : Prop :=
  s.g_btn_tracking ≠ 0 ∧ level ≠ GPIO_PIN_RESET ∧ s.g_long_fired = 0

instance (level : GPIO_PinState) (s : Stopwatch) : Decidable (shortPressFires level s) := by
  unfold shortPressFires; infer_instance

/-- No stopwatch tick of the sequence, started in `s`, fires the long press. -/
def NoLongPress (es : List Event) (s : Stopwatch) : Prop :=
  match es with
  | [] => True
  | .tick level :: rest => ¬ longPressFires level s ∧ NoLongPress rest (step (.tick level) s)
  | e :: rest => NoLongPress rest (step e s)

/-- Facts that hold in every reachable state. -/
structure Inv (s : Stopwatch) : Prop where
  tenths_le : s.g_tenths ≤ 1000
  done_iff_zero : s.g_state = SW_DONE ↔ s.g_tenths = 0
  latch_iff_done : s.g_done_latched ≠ 0 ↔ s.g_state = SW_DONE
  accum_idle : s.g_state ≠ SW_RUNNING → s.g_ms_accum = 0
  accum_le : s.g_ms_accum ≤ 99
  blink_idle : s.g_state ≠ SW_PAUSED → s.g_pause_blink_ms = 0 ∧ s.g_pause_show = 1
  blink_le : s.g_pause_blink_ms ≤ 499
  show_le : s.g_pause_show ≤ 1
  buz_le : s.g_buz_remain_ms ≤ 1000
  buz_pin : s.pa6 = GPIO_PIN_SET ↔ s.g_buz_remain_ms ≠ 0
  hold_le : s.g_hold_ms ≤ 65535
  disp_val : s.disp.g_disp_tenths =
    if s.g_state = SW_PAUSED ∧ s.g_pause_show = 0 then SEVENSEG4_BLANK else s.g_tenths

/-- The part of `Inv` that also holds between the blocks of a tick. -/
structure InvCore (s : Stopwatch) : Prop where
  tenths_le : s.g_tenths ≤ 1000
  done_iff_zero : s.g_state = SW_DONE ↔ s.g_tenths = 0
  latch_iff_done : s.g_done_latched ≠ 0 ↔ s.g_state = SW_DONE
  accum_le : s.g_ms_accum ≤ 99
  blink_le : s.g_pause_blink_ms ≤ 499
  show_le : s.g_pause_show ≤ 1
  buz_le : s.g_buz_remain_ms ≤ 1000
  buz_pin : s.pa6 = GPIO_PIN_SET ↔ s.g_buz_remain_ms ≠ 0
  hold_le : s.g_hold_ms ≤ 65535

/-- What holds after the pause-blink block. -/
structure InvBlink (s : Stopwatch) : Prop where
  core : InvCore s
  blink_idle : s.g_state ≠ SW_PAUSED → s.g_pause_blink_ms = 0 ∧ s.g_pause_show = 1
  disp_val : s.disp.g_disp_tenths =
    if s.g_state = SW_PAUSED ∧ s.g_pause_show = 0 then SEVENSEG4_BLANK else s.g_tenths

/-- The state `j` ms into a press that started right after startup: the state
`Stopwatch_Init` leaves, with the press tracked and the hold counter at `j`. -/
def heldFor (j : Nat) : Stopwatch :=
  { Stopwatch_ButtonEdgePress (Stopwatch_Init boot) with g_hold_ms := j }

/-- A press held for 1499 ms after startup. -/
def heldState : Stopwatch := heldFor 1499

/-- After startup: a tap (press edge, release tick) starts the countdown. -/
def runningAtStart : Stopwatch :=
  Stopwatch_Tick1ms GPIO_PIN_SET (Stopwatch_ButtonEdgePress (Stopwatch_Init boot))

/-- After startup: a tap starts the countdown, then a second press edge
arrives. -/
def runningPressed : Stopwatch := Stopwatch_ButtonEdgePress runningAtStart

/-- The countdown 99 999 ms after it was started at startup and left alone. -/
def lastTenth : Stopwatch := tickSeq (fun _ => GPIO_PIN_SET) 99998 runningAtStart

/-- A press edge right after startup. -/
def pressedAtStart : Stopwatch := Stopwatch_ButtonEdgePress (Stopwatch_Init boot)

/-- After startup: the countdown is started, paused by a second tap, and a
third press edge arrives. -/
def pausedPressed : Stopwatch :=
  Stopwatch_ButtonEdgePress (Stopwatch_Tick1ms GPIO_PIN_SET runningPressed)

/-! ## Display executions and observations -/

/-- State of the display driver after `n` consecutive calls of
`SevenSeg4_Tick1ms`. -/
def scanSeq (n : Nat) (d : SevenSeg4) : SevenSeg4 :=
  match n with
  | 0 => d
  | k + 1 => SevenSeg4_Tick1ms (scanSeq k d)

/-- The frame `SevenSeg4_Tick1ms` writes at cursor 0 for the stored value `v`
(sevenseg4.c, lines 148-161): all entries `seg_lut[0]` for the blank sentinel,
the formatted digits otherwise. -/
def rebuilt_frame (v : Nat) : DispBuf :=
  if v = SEVENSEG4_BLANK then
    { b0 := seg_lut.getD 0 0, b1 := seg_lut.getD 0 0,
      b2 := seg_lut.getD 0 0, b3 := seg_lut.getD 0 0 }
  else
    { b0 := seg_lut.getD ((v / 1000) % 10 + 1) 0
      b1 := seg_lut.getD ((v / 100) % 10 + 1) 0
      b2 := seg_lut.getD ((v / 10) % 10 + 1) 0 ||| 0x80
      b3 := seg_lut.getD (v % 10 + 1) 0 }

/-- The two calls into the display driver after its initialisation. -/
inductive DispCall where
  | tick
  | setTenths (v : Nat)
  deriving DecidableEq, Repr

/-- Effect of one call into the display driver. -/
def dispStep (c : DispCall) (d : SevenSeg4) : SevenSeg4 :=
  match c with
  | .tick => SevenSeg4_Tick1ms d
  | .setTenths v => SevenSeg4_SetTenths v d

/-- Effect of a sequence of calls into the display driver, first call first. -/
def dispRun (cs : List DispCall) (d : SevenSeg4) : SevenSeg4 :=
  match cs with
  | [] => d
  | c :: rest => dispRun rest (dispStep c d)

/-- Number of display ticks in a sequence of calls. -/
def dispTicks (cs : List DispCall) : Nat :=
  match cs with
  | [] => 0
  | .tick :: rest => dispTicks rest + 1
  | _ :: rest => dispTicks rest

/-- Level of digit-enable line `i` (PC0..PC3); asserted is HIGH. -/
def digit_line (d : SevenSeg4) (i : Nat) : GPIO_PinState :=
  match i with
  | 0 => d.pc0
  | 1 => d.pc1
  | 2 => d.pc2
  | _ => d.pc3

/-- Level of segment line `i` (A..G, DP on PB0, PB1, PB2, PB4, PB5, PB6, PB7,
PB8); lit is LOW. -/
def seg_line (d : SevenSeg4) (i : Nat) : GPIO_PinState :=
  match i with
  | 0 => d.pb0
  | 1 => d.pb1
  | 2 => d.pb2
  | 3 => d.pb4
  | 4 => d.pb5
  | 5 => d.pb6
  | 6 => d.pb7
  | _ => d.pb8

/-! ## Lemmas on the blocks of a tick -/

theorem u16_inc (x : Nat) (h : x < 65535) : u16 (x + 1) = x + 1 := by
  unfold u16; omega

theorem u16_dec (x : Nat) (h0 : x ≠ 0) (h : x < 65536) : u16 (x + 65535) = x - 1 := by
  unfold u16; omega

theorem SetTenths_val (t : Nat) (d : SevenSeg4) (h : t ≤ 1000) :
    (SevenSeg4_SetTenths t d).g_disp_tenths = t := by
  simp only [SevenSeg4_SetTenths, SEVENSEG4_BLANK]
  split_ifs <;> first | rfl | omega

theorem SetTenths_blank (d : SevenSeg4) :
    (SevenSeg4_SetTenths SEVENSEG4_BLANK d).g_disp_tenths = SEVENSEG4_BLANK := by
  simp [SevenSeg4_SetTenths]

theorem Inv.core {s : Stopwatch} (h : Inv s) : InvCore s :=
  ⟨h.tenths_le, h.done_iff_zero, h.latch_iff_done, h.accum_le,
   h.blink_le, h.show_le, h.buz_le, h.buz_pin, h.hold_le⟩

theorem Inv_reset (s : Stopwatch) (h : s.g_hold_ms ≤ 65535) : Inv (reset_to_startup s) := by
  constructor <;>
    simp [reset_to_startup, buzzer_off, SevenSeg4_SetTenths, SEVENSEG4_BLANK]
  exact h

theorem InvCore_long_press (level : GPIO_PinState) (s : Stopwatch) (h : InvCore s) :
    InvCore (tick_long_press level s) := by
  obtain ⟨h1,h2,h3,h5,h7,h8,h9,h10,h11⟩ := h
  simp only [tick_long_press]
  split_ifs with a b c d e f
  · exact (Inv_reset _ (by simp [u16]; omega)).core
  · constructor <;> simp_all [u16]
    omega
  · exact (Inv_reset _ (by simpa using h11)).core
  · constructor <;> simp_all
  · simp only [short_press_toggle]
    split_ifs with x y
    · constructor <;> simp_all
    · constructor <;> simp_all
    · constructor <;> simp_all
  · constructor <;> simp_all
  · constructor <;> assumption


theorem InvCore_buzzer_tick (s : Stopwatch) (h : InvCore s) : InvCore (buzzer_tick_1ms s) := by
  obtain ⟨h1,h2,h3,h5,h7,h8,h9,h10,h11⟩ := h
  simp only [buzzer_tick_1ms, buzzer_off]
  split_ifs with a b
  · constructor <;> assumption
  · constructor <;> simp_all
  · have := u16_dec s.g_buz_remain_ms a (by omega)
    constructor <;> simp_all
    omega

theorem InvBlink_pause_blink (s : Stopwatch) (h : InvCore s) :
    InvBlink (tick_pause_blink s) := by
  obtain ⟨h1,h2,h3,h5,h7,h8,h9,h10,h11⟩ := h
  have hv := SetTenths_val s.g_tenths s.disp h1
  have hb := SetTenths_blank s.disp
  simp only [tick_pause_blink, PAUSE_BLINK_MS]
  split_ifs with a b c d e f g
  all_goals (constructor; constructor)
  all_goals simp_all [u16]
  all_goals omega

theorem beep_start_done (s : Stopwatch) :
    buzzer_beep_start DONE_BEEP_MS s =
      { s with g_buz_remain_ms := 1000, pa6 := GPIO_PIN_SET } := by
  rfl

seal u16 SevenSeg4_SetTenths SEVENSEG4_BLANK in
theorem Inv_timekeeping (s : Stopwatch) (h : InvBlink s) : Inv (tick_timekeeping s) := by
  obtain ⟨⟨h1,h2,h3,h5,h7,h8,h9,h10,h11⟩, h6, h12⟩ := h
  by_cases a : s.g_state = SW_RUNNING
  · have h0 : s.g_tenths ≠ 0 := by
      intro h; rw [← h2, a] at h; cases h
    have hd : u16 (s.g_tenths + 65535) = s.g_tenths - 1 := u16_dec _ h0 (by omega)
    have hi := u16_inc s.g_ms_accum (by omega)
    have hv := SetTenths_val (s.g_tenths - 1) s.disp (by omega)
    rw [tick_timekeeping, if_pos a, if_pos (by omega)]
    simp only [hd, hi, beep_start_done, TENTH_STEP_MS]
    clear hd hi
    split_ifs with c d e
    · constructor <;> simp_all
    · constructor <;> simp_all
    · constructor <;> simp_all
      all_goals omega
    · constructor <;> simp_all
      all_goals omega
  · rw [tick_timekeeping, if_neg a]
    constructor <;> simp_all

theorem Inv_init (s0 : Stopwatch) (h : WellTyped s0) : Inv (Stopwatch_Init s0) := by
  unfold WellTyped at h
  constructor <;>
    simp [Stopwatch_Init, reset_to_startup, buzzer_off, SevenSeg4_SetTenths, SEVENSEG4_BLANK]
  omega

theorem Inv_tick (level : GPIO_PinState) (s : Stopwatch) (h : Inv s) :
    Inv (Stopwatch_Tick1ms level s) :=
  Inv_timekeeping _ (InvBlink_pause_blink _
    (InvCore_long_press level _ (InvCore_buzzer_tick _ h.core)))

theorem Inv_edge (s : Stopwatch) (h : Inv s) : Inv (Stopwatch_ButtonEdgePress s) := by
  obtain ⟨h1,h2,h3,h4,h5,h6,h7,h8,h9,h10,h11,h12⟩ := h
  constructor <;> simp_all [Stopwatch_ButtonEdgePress]

theorem scan_g_disp_tenths (d : SevenSeg4) :
    (SevenSeg4_Tick1ms d).g_disp_tenths = d.g_disp_tenths := by
  simp only [SevenSeg4_Tick1ms, display_scan_step, digit_on, set_segments_from_pattern,
    set_segments_all_off, digits_all_off, update_display_from_tenths]
  split_ifs <;> split <;> rfl

theorem Inv_scan (s : Stopwatch) (h : Inv s) :
    Inv { s with disp := SevenSeg4_Tick1ms s.disp } := by
  obtain ⟨h1,h2,h3,h4,h5,h6,h7,h8,h9,h10,h11,h12⟩ := h
  constructor <;> first | assumption | (simp only [scan_g_disp_tenths]; exact h12)

theorem Inv_step (e : Event) (s : Stopwatch) (h : Inv s) : Inv (step e s) := by
  cases e with
  | tick level => exact Inv_tick level s h
  | edgePress => exact Inv_edge s h
  | scan => exact Inv_scan s h

theorem Reachable.inv {s : Stopwatch} (h : Reachable s) : Inv s := by
  induction h with
  | init s0 hw => exact Inv_init s0 hw
  | step e s _ ih => exact Inv_step e s ih

theorem runningAtStart_reachable : Reachable runningAtStart :=
  Reachable.step (Event.tick GPIO_PIN_SET) _
    (Reachable.step Event.edgePress _ (Reachable.init boot (by decide)))

theorem runningPressed_reachable : Reachable runningPressed :=
  Reachable.step Event.edgePress _ runningAtStart_reachable

theorem pausedPressed_reachable : Reachable pausedPressed :=
  Reachable.step Event.edgePress _
    (Reachable.step (Event.tick GPIO_PIN_SET) _ runningPressed_reachable)

/-! ## Startup -/

/-- C9: `Stopwatch_Init`, called in any prior state, leaves the state
IDLE_PAUSED, tenths 1000, ms accumulator 0, the buzzer line low with no time
remaining, the done latch clear, the show flag 1 and the display value 1000;
`SevenSeg4_Init`, called in any prior state, leaves the scan cursor 0 and the
frame buffer holding digits 1, 0, 0, 0 with the decimal point on the third. -/
theorem startup_defaults (s : Stopwatch) (d : SevenSeg4) :
    (Stopwatch_Init s).g_state = SW_IDLE_PAUSED ∧
    (Stopwatch_Init s).g_tenths = 1000 ∧
    (Stopwatch_Init s).g_ms_accum = 0 ∧
    (Stopwatch_Init s).pa6 = GPIO_PIN_RESET ∧
    (Stopwatch_Init s).g_buz_remain_ms = 0 ∧
    (Stopwatch_Init s).g_done_latched = 0 ∧
    (Stopwatch_Init s).g_pause_show = 1 ∧
    (Stopwatch_Init s).disp.g_disp_tenths = 1000 ∧
    (SevenSeg4_Init d).scan_idx = 0 ∧
    (SevenSeg4_Init d).disp_buf =
      { b0 := seg_lut.getD (1 + 1) 0, b1 := seg_lut.getD (0 + 1) 0,
        b2 := seg_lut.getD (0 + 1) 0 ||| 0x80, b3 := seg_lut.getD (0 + 1) 0 } ∧
    (SevenSeg4_Init d).disp_buf =
      { b0 := 0b00000110, b1 := 0b00111111, b2 := 0b10111111, b3 := 0b00111111 } := by
  refine ⟨rfl, rfl, rfl, rfl, rfl, rfl, rfl, rfl, rfl, ?_, ?_⟩
  · simp only [SevenSeg4_Init, update_display_from_tenths, set_segments_all_off, digits_all_off]
  · simp only [SevenSeg4_Init, update_display_from_tenths, set_segments_all_off, digits_all_off]
    decide

/-! ## Digit formatting -/

theorem scan_step_disp_buf (d : SevenSeg4) :
    (display_scan_step d).disp_buf = d.disp_buf := by
  simp only [display_scan_step, digit_on, set_segments_from_pattern,
    set_segments_all_off, digits_all_off]
  split <;> rfl

theorem tick_rebuild_numeric (d : SevenSeg4) (h0 : d.scan_idx = 0)
    (hb : d.g_disp_tenths ≠ SEVENSEG4_BLANK) :
    (SevenSeg4_Tick1ms d).disp_buf =
      (update_display_from_tenths d.g_disp_tenths d).disp_buf := by
  rw [SevenSeg4_Tick1ms]
  simp only [scan_step_disp_buf, if_pos h0, if_neg hb]

theorem seg_lut_digit_bits :
    ∀ i, i < 10 →
      seg_lut.getD (i + 1) 0 &&& 0x80 = 0 ∧
      (seg_lut.getD (i + 1) 0 ||| 0x80) &&& 0x80 = 0x80 ∧
      (seg_lut.getD (i + 1) 0 ||| 0x80) &&& 0x7F = seg_lut.getD (i + 1) 0 := by
  decide

/-- C10: for every stored value `t` in `[0,1000]`, a display tick at cursor 0
rebuilds the frame buffer to the patterns of the digits `(t/1000)%10`,
`(t/100)%10`, `(t/10)%10`, `t%10` (pattern of digit `d` is `seg_lut[d+1]`), the
third one with bit `0x80` added; these digits recompose `t`; the decimal-point
bit is set in the third entry and clear in the other three.  The values 1000,
999, 42 and 0 give 1,0,0.,0 and 0,9,9.,9 and 0,0,4.,2 and 0,0,0.,0. -/
theorem digit_formatting :
    (∀ (t : Nat) (d : SevenSeg4), t ≤ 1000 → d.scan_idx = 0 → d.g_disp_tenths = t →
      (SevenSeg4_Tick1ms d).disp_buf =
        { b0 := seg_lut.getD ((t / 1000) % 10 + 1) 0
          b1 := seg_lut.getD ((t / 100) % 10 + 1) 0
          b2 := seg_lut.getD ((t / 10) % 10 + 1) 0 ||| 0x80
          b3 := seg_lut.getD (t % 10 + 1) 0 } ∧
      1000 * ((t / 1000) % 10) + 100 * ((t / 100) % 10) + 10 * ((t / 10) % 10) + t % 10 = t ∧
      (SevenSeg4_Tick1ms d).disp_buf.b0 &&& 0x80 = 0 ∧
      (SevenSeg4_Tick1ms d).disp_buf.b1 &&& 0x80 = 0 ∧
      (SevenSeg4_Tick1ms d).disp_buf.b2 &&& 0x80 = 0x80 ∧
      (SevenSeg4_Tick1ms d).disp_buf.b2 &&& 0x7F = seg_lut.getD ((t / 10) % 10 + 1) 0 ∧
      (SevenSeg4_Tick1ms d).disp_buf.b3 &&& 0x80 = 0) ∧
    (∀ d : SevenSeg4, d.scan_idx = 0 →
      (d.g_disp_tenths = 1000 → (SevenSeg4_Tick1ms d).disp_buf =
        { b0 := seg_lut.getD (1 + 1) 0, b1 := seg_lut.getD (0 + 1) 0,
          b2 := seg_lut.getD (0 + 1) 0 ||| 0x80, b3 := seg_lut.getD (0 + 1) 0 }) ∧
      (d.g_disp_tenths = 999 → (SevenSeg4_Tick1ms d).disp_buf =
        { b0 := seg_lut.getD (0 + 1) 0, b1 := seg_lut.getD (9 + 1) 0,
          b2 := seg_lut.getD (9 + 1) 0 ||| 0x80, b3 := seg_lut.getD (9 + 1) 0 }) ∧
      (d.g_disp_tenths = 42 → (SevenSeg4_Tick1ms d).disp_buf =
        { b0 := seg_lut.getD (0 + 1) 0, b1 := seg_lut.getD (0 + 1) 0,
          b2 := seg_lut.getD (4 + 1) 0 ||| 0x80, b3 := seg_lut.getD (2 + 1) 0 }) ∧
      (d.g_disp_tenths = 0 → (SevenSeg4_Tick1ms d).disp_buf =
        { b0 := seg_lut.getD (0 + 1) 0, b1 := seg_lut.getD (0 + 1) 0,
          b2 := seg_lut.getD (0 + 1) 0 ||| 0x80, b3 := seg_lut.getD (0 + 1) 0 })) := by
  have key : ∀ (t : Nat) (d : SevenSeg4), t ≤ 1000 → d.scan_idx = 0 → d.g_disp_tenths = t →
      (SevenSeg4_Tick1ms d).disp_buf =
        { b0 := seg_lut.getD ((t / 1000) % 10 + 1) 0
          b1 := seg_lut.getD ((t / 100) % 10 + 1) 0
          b2 := seg_lut.getD ((t / 10) % 10 + 1) 0 ||| 0x80
          b3 := seg_lut.getD (t % 10 + 1) 0 } := by
    intro t d ht h0 hv
    have hb : d.g_disp_tenths ≠ SEVENSEG4_BLANK := by
      rw [hv]; unfold SEVENSEG4_BLANK; omega
    rw [tick_rebuild_numeric d h0 hb, hv]
    rfl
  refine ⟨?_, ?_⟩
  · intro t d ht h0 hv
    rw [key t d ht h0 hv]
    have b3 := seg_lut_digit_bits ((t / 1000) % 10) (Nat.mod_lt _ (by decide))
    have b2 := seg_lut_digit_bits ((t / 100) % 10) (Nat.mod_lt _ (by decide))
    have b1 := seg_lut_digit_bits ((t / 10) % 10) (Nat.mod_lt _ (by decide))
    have b0 := seg_lut_digit_bits (t % 10) (Nat.mod_lt _ (by decide))
    exact ⟨rfl, by omega, b3.1, b2.1, b1.2.1, b1.2.2, b0.1⟩
  · intro d h0
    exact ⟨fun h => key 1000 d (by decide) h0 h, fun h => key 999 d (by decide) h0 h,
      fun h => key 42 d (by decide) h0 h, fun h => key 0 d (by decide) h0 h⟩

/-- Witness for C10: the display state after `SevenSeg4_Init` has cursor 0 and
stored value 1000. -/
theorem digit_formatting_witness :
    (SevenSeg4_Tick1ms (SevenSeg4_Init boot.disp)).disp_buf =
      { b0 := seg_lut.getD ((1000 / 1000) % 10 + 1) 0
        b1 := seg_lut.getD ((1000 / 100) % 10 + 1) 0
        b2 := seg_lut.getD ((1000 / 10) % 10 + 1) 0 ||| 0x80
        b3 := seg_lut.getD (1000 % 10 + 1) 0 } :=
  (digit_formatting.1 1000 (SevenSeg4_Init boot.disp) (by decide) rfl rfl).1

/-! ## Long press -/

theorem buzzer_tick_frame (s : Stopwatch) :
    (buzzer_tick_1ms s).g_state = s.g_state ∧
    (buzzer_tick_1ms s).g_tenths = s.g_tenths ∧
    (buzzer_tick_1ms s).g_ms_accum = s.g_ms_accum ∧
    (buzzer_tick_1ms s).g_btn_tracking = s.g_btn_tracking ∧
    (buzzer_tick_1ms s).g_long_fired = s.g_long_fired ∧
    (buzzer_tick_1ms s).g_hold_ms = s.g_hold_ms ∧
    (buzzer_tick_1ms s).g_done_latched = s.g_done_latched ∧
    (buzzer_tick_1ms s).g_pause_blink_ms = s.g_pause_blink_ms ∧
    (buzzer_tick_1ms s).g_pause_show = s.g_pause_show ∧
    (buzzer_tick_1ms s).disp = s.disp := by
  simp only [buzzer_tick_1ms, buzzer_off]
  split_ifs <;> exact ⟨rfl, rfl, rfl, rfl, rfl, rfl, rfl, rfl, rfl, rfl⟩

theorem longPressFires_buzzer_tick (level : GPIO_PinState) (s : Stopwatch) :
    longPressFires level (buzzer_tick_1ms s) ↔ longPressFires level s := by
  obtain ⟨_, _, _, h4, h5, h6, _⟩ := buzzer_tick_frame s
  simp only [longPressFires, h4, h5, h6]

/-- The long-press block, when the long press fires, is the hold-counter
update, the latch and `reset_to_startup`. -/
theorem tick_long_press_fires (level : GPIO_PinState) (s : Stopwatch)
    (h : longPressFires level s) :
    tick_long_press level s =
      reset_to_startup
        { (if s.g_hold_ms < 0xFFFF then { s with g_hold_ms := u16 (s.g_hold_ms + 1) } else s)
          with g_long_fired := 1 } := by
  obtain ⟨ht, hl, hf, hh⟩ := h
  rw [tick_long_press, if_pos ht, if_pos hl]
  by_cases c : s.g_hold_ms < 0xFFFF
  · rw [if_pos c] at hh
    simp only [if_pos c]
    rw [if_pos ⟨hf, hh⟩]
  · rw [if_neg c] at hh
    simp only [if_neg c]
    rw [if_pos ⟨hf, hh⟩]

/-- Whatever the state in which `reset_to_startup` is called, the two later
blocks of the tick leave its values in place. -/
theorem after_reset (y : Stopwatch) :
    (tick_timekeeping (tick_pause_blink (reset_to_startup y))).g_state = SW_IDLE_PAUSED ∧
    (tick_timekeeping (tick_pause_blink (reset_to_startup y))).g_tenths = 1000 ∧
    (tick_timekeeping (tick_pause_blink (reset_to_startup y))).g_ms_accum = 0 ∧
    (tick_timekeeping (tick_pause_blink (reset_to_startup y))).g_pause_blink_ms = 0 ∧
    (tick_timekeeping (tick_pause_blink (reset_to_startup y))).g_pause_show = 1 ∧
    (tick_timekeeping (tick_pause_blink (reset_to_startup y))).g_done_latched = 0 ∧
    (tick_timekeeping (tick_pause_blink (reset_to_startup y))).g_buz_remain_ms = 0 ∧
    (tick_timekeeping (tick_pause_blink (reset_to_startup y))).pa6 = GPIO_PIN_RESET ∧
    (tick_timekeeping (tick_pause_blink (reset_to_startup y))).disp.g_disp_tenths = 1000 ∧
    (tick_timekeeping (tick_pause_blink (reset_to_startup y))).g_btn_tracking = y.g_btn_tracking ∧
    (tick_timekeeping (tick_pause_blink (reset_to_startup y))).g_long_fired = y.g_long_fired ∧
    (tick_timekeeping (tick_pause_blink (reset_to_startup y))).g_hold_ms = y.g_hold_ms :=
  ⟨rfl, rfl, rfl, rfl, rfl, rfl, rfl, rfl, rfl, rfl, rfl, rfl⟩

/-- C4: in every state, a tick in which the long press fires ends with state
IDLE_PAUSED, tenths 1000, ms accumulator 0, blink counter 0, show flag 1, done
latch 0, buzzer time 0, buzzer line low and display value 1000; these are the
values `Stopwatch_Init` gives the same fields, whatever state it is called in. -/
theorem long_press_reset_equals_startup (level : GPIO_PinState) (s s0 : Stopwatch)
    (h : longPressFires level s) :
    (Stopwatch_Tick1ms level s).g_state = SW_IDLE_PAUSED ∧
    (Stopwatch_Tick1ms level s).g_tenths = 1000 ∧
    (Stopwatch_Tick1ms level s).g_ms_accum = 0 ∧
    (Stopwatch_Tick1ms level s).g_pause_blink_ms = 0 ∧
    (Stopwatch_Tick1ms level s).g_pause_show = 1 ∧
    (Stopwatch_Tick1ms level s).g_done_latched = 0 ∧
    (Stopwatch_Tick1ms level s).g_buz_remain_ms = 0 ∧
    (Stopwatch_Tick1ms level s).pa6 = GPIO_PIN_RESET ∧
    (Stopwatch_Tick1ms level s).disp.g_disp_tenths = 1000 ∧
    (Stopwatch_Tick1ms level s).g_state = (Stopwatch_Init s0).g_state ∧
    (Stopwatch_Tick1ms level s).g_tenths = (Stopwatch_Init s0).g_tenths ∧
    (Stopwatch_Tick1ms level s).g_ms_accum = (Stopwatch_Init s0).g_ms_accum ∧
    (Stopwatch_Tick1ms level s).g_pause_blink_ms = (Stopwatch_Init s0).g_pause_blink_ms ∧
    (Stopwatch_Tick1ms level s).g_pause_show = (Stopwatch_Init s0).g_pause_show ∧
    (Stopwatch_Tick1ms level s).g_done_latched = (Stopwatch_Init s0).g_done_latched ∧
    (Stopwatch_Tick1ms level s).g_buz_remain_ms = (Stopwatch_Init s0).g_buz_remain_ms ∧
    (Stopwatch_Tick1ms level s).pa6 = (Stopwatch_Init s0).pa6 ∧
    (Stopwatch_Tick1ms level s).disp.g_disp_tenths = (Stopwatch_Init s0).disp.g_disp_tenths := by
  have hb := (longPressFires_buzzer_tick level s).mpr h
  rw [Stopwatch_Tick1ms, tick_long_press_fires level _ hb]
  obtain ⟨a1, a2, a3, a4, a5, a6, a7, a8, a9, _⟩ := after_reset
    { (if (buzzer_tick_1ms s).g_hold_ms < 0xFFFF
        then { buzzer_tick_1ms s with g_hold_ms := u16 ((buzzer_tick_1ms s).g_hold_ms + 1) }
        else buzzer_tick_1ms s) with g_long_fired := 1 }
  exact ⟨a1, a2, a3, a4, a5, a6, a7, a8, a9, a1, a2, a3, a4, a5, a6, a7, a8, a9⟩

/-- Witness for C4: the 1500th tick of a held press. -/
theorem long_press_reset_equals_startup_witness :
    longPressFires GPIO_PIN_RESET heldState ∧
    (Stopwatch_Tick1ms GPIO_PIN_RESET heldState).g_state = SW_IDLE_PAUSED ∧
    (Stopwatch_Tick1ms GPIO_PIN_RESET heldState).g_tenths = 1000 :=
  ⟨by decide,
   (long_press_reset_equals_startup GPIO_PIN_RESET heldState boot (by decide)).1,
   (long_press_reset_equals_startup GPIO_PIN_RESET heldState boot (by decide)).2.1⟩

theorem tick_pause_blink_frame (s : Stopwatch) :
    (tick_pause_blink s).g_state = s.g_state ∧
    (tick_pause_blink s).g_tenths = s.g_tenths ∧
    (tick_pause_blink s).g_ms_accum = s.g_ms_accum ∧
    (tick_pause_blink s).g_btn_tracking = s.g_btn_tracking ∧
    (tick_pause_blink s).g_long_fired = s.g_long_fired ∧
    (tick_pause_blink s).g_hold_ms = s.g_hold_ms ∧
    (tick_pause_blink s).g_done_latched = s.g_done_latched ∧
    (tick_pause_blink s).g_buz_remain_ms = s.g_buz_remain_ms ∧
    (tick_pause_blink s).pa6 = s.pa6 := by
  simp only [tick_pause_blink]
  split_ifs <;> exact ⟨rfl, rfl, rfl, rfl, rfl, rfl, rfl, rfl, rfl⟩

seal u16 SevenSeg4_SetTenths SEVENSEG4_BLANK in
theorem tick_timekeeping_frame (s : Stopwatch) :
    (tick_timekeeping s).g_btn_tracking = s.g_btn_tracking ∧
    (tick_timekeeping s).g_long_fired = s.g_long_fired ∧
    (tick_timekeeping s).g_hold_ms = s.g_hold_ms ∧
    (tick_timekeeping s).g_pause_blink_ms = s.g_pause_blink_ms ∧
    (tick_timekeeping s).g_pause_show = s.g_pause_show := by
  simp only [tick_timekeeping, beep_start_done]
  split_ifs <;> exact ⟨rfl, rfl, rfl, rfl, rfl⟩

/-- The button tracker after a tick is the one the long-press block leaves. -/
theorem tick_tracker (level : GPIO_PinState) (s : Stopwatch) :
    (Stopwatch_Tick1ms level s).g_btn_tracking =
      (tick_long_press level (buzzer_tick_1ms s)).g_btn_tracking ∧
    (Stopwatch_Tick1ms level s).g_long_fired =
      (tick_long_press level (buzzer_tick_1ms s)).g_long_fired ∧
    (Stopwatch_Tick1ms level s).g_hold_ms =
      (tick_long_press level (buzzer_tick_1ms s)).g_hold_ms := by
  obtain ⟨a1, a2, a3, _⟩ := tick_timekeeping_frame
    (tick_pause_blink (tick_long_press level (buzzer_tick_1ms s)))
  obtain ⟨_, _, _, b1, b2, b3, _⟩ := tick_pause_blink_frame
    (tick_long_press level (buzzer_tick_1ms s))
  rw [Stopwatch_Tick1ms, a1, a2, a3, b1, b2, b3]
  exact ⟨rfl, rfl, rfl⟩

theorem short_press_toggle_tracker (s : Stopwatch) :
    (short_press_toggle s).g_btn_tracking = s.g_btn_tracking ∧
    (short_press_toggle s).g_long_fired = s.g_long_fired ∧
    (short_press_toggle s).g_hold_ms = s.g_hold_ms := by
  rw [short_press_toggle]
  split_ifs <;> exact ⟨rfl, rfl, rfl⟩

/-- A tick that reads the button released leaves no press tracked. -/
theorem tick_released_tracking (s : Stopwatch) :
    (Stopwatch_Tick1ms GPIO_PIN_SET s).g_btn_tracking = 0 := by
  rw [(tick_tracker GPIO_PIN_SET s).1, tick_long_press]
  by_cases ht : (buzzer_tick_1ms s).g_btn_tracking ≠ 0
  · rw [if_pos ht, if_neg (by decide)]
    simp only []
    split_ifs
    · rw [(short_press_toggle_tracker _).1]
    · rfl
  · rw [if_neg ht]
    exact not_not.mp ht

theorem tick_long_press_not_tracking (level : GPIO_PinState) (s : Stopwatch)
    (h : s.g_btn_tracking = 0) : tick_long_press level s = s := by
  rw [tick_long_press, if_neg (not_not.mpr h)]

theorem tick_long_press_released_fired (s : Stopwatch)
    (ht : s.g_btn_tracking ≠ 0) (hf : s.g_long_fired ≠ 0) :
    tick_long_press GPIO_PIN_SET s = { s with g_btn_tracking := 0 } := by
  rw [tick_long_press, if_pos ht, if_neg (by decide)]
  simp only []
  rw [if_neg hf]

theorem tick_long_press_released_short (s : Stopwatch)
    (ht : s.g_btn_tracking ≠ 0) (hf : s.g_long_fired = 0) :
    tick_long_press GPIO_PIN_SET s = short_press_toggle { s with g_btn_tracking := 0 } := by
  rw [tick_long_press, if_pos ht, if_neg (by decide)]
  simp only []
  rw [if_pos hf]

theorem tick_timekeeping_not_running (s : Stopwatch) (h : s.g_state ≠ SW_RUNNING) :
    tick_timekeeping s = { s with g_ms_accum := 0 } := by
  rw [tick_timekeeping, if_neg h]

/-- When the long-press block leaves a state other than RUNNING, that is the
state at the end of the tick. -/
theorem tick_state_not_running (level : GPIO_PinState) (s : Stopwatch)
    (h : (tick_long_press level (buzzer_tick_1ms s)).g_state ≠ SW_RUNNING) :
    (Stopwatch_Tick1ms level s).g_state =
      (tick_long_press level (buzzer_tick_1ms s)).g_state := by
  have hb := (tick_pause_blink_frame (tick_long_press level (buzzer_tick_1ms s))).1
  rw [Stopwatch_Tick1ms, tick_timekeeping_not_running _ (by rw [hb]; exact h)]
  exact hb

/-- A released tick after the long press has fired leaves the state alone. -/
theorem tick_released_fired_state (s : Stopwatch) (hf : s.g_long_fired ≠ 0)
    (hs : s.g_state ≠ SW_RUNNING) :
    (Stopwatch_Tick1ms GPIO_PIN_SET s).g_state = s.g_state := by
  obtain ⟨b1, _, _, b4, b5, _⟩ := buzzer_tick_frame s
  have e : (tick_long_press GPIO_PIN_SET (buzzer_tick_1ms s)).g_state = s.g_state := by
    by_cases ht : (buzzer_tick_1ms s).g_btn_tracking = 0
    · rw [tick_long_press_not_tracking _ _ ht, b1]
    · rw [tick_long_press_released_fired _ ht (by rw [b5]; exact hf)]
      exact b1
  rw [tick_state_not_running _ _ (by rw [e]; exact hs), e]

/-! ## The two later blocks of a tick -/

theorem blocks_not_running (x : Stopwatch) (h : x.g_state ≠ SW_RUNNING) :
    (tick_timekeeping (tick_pause_blink x)).g_state = x.g_state ∧
    (tick_timekeeping (tick_pause_blink x)).g_tenths = x.g_tenths ∧
    (tick_timekeeping (tick_pause_blink x)).g_ms_accum = 0 ∧
    (tick_timekeeping (tick_pause_blink x)).g_buz_remain_ms = x.g_buz_remain_ms ∧
    (tick_timekeeping (tick_pause_blink x)).pa6 = x.pa6 ∧
    (tick_timekeeping (tick_pause_blink x)).g_done_latched = x.g_done_latched := by
  obtain ⟨b1, b2, _, _, _, _, b7, b8, b9⟩ := tick_pause_blink_frame x
  rw [tick_timekeeping_not_running _ (by rw [b1]; exact h)]
  exact ⟨b1, b2, rfl, b8, b9, b7⟩

seal u16 SevenSeg4_SetTenths SEVENSEG4_BLANK in
theorem blocks_running_no_carry (x : Stopwatch) (h : x.g_state = SW_RUNNING)
    (ht : x.g_tenths > 0) (ha : u16 (x.g_ms_accum + 1) < TENTH_STEP_MS) :
    (tick_timekeeping (tick_pause_blink x)).g_state = SW_RUNNING ∧
    (tick_timekeeping (tick_pause_blink x)).g_tenths = x.g_tenths ∧
    (tick_timekeeping (tick_pause_blink x)).g_ms_accum = u16 (x.g_ms_accum + 1) ∧
    (tick_timekeeping (tick_pause_blink x)).g_buz_remain_ms = x.g_buz_remain_ms ∧
    (tick_timekeeping (tick_pause_blink x)).pa6 = x.pa6 ∧
    (tick_timekeeping (tick_pause_blink x)).g_done_latched = x.g_done_latched := by
  obtain ⟨b1, b2, b3, _, _, _, b7, b8, b9⟩ := tick_pause_blink_frame x
  rw [tick_timekeeping, if_pos (by rw [b1]; exact h), if_pos (by rw [b2]; exact ht)]
  simp only []
  rw [if_neg (by rw [b3]; exact Nat.not_le.mpr ha)]
  exact ⟨by rw [← h]; exact b1, b2, by rw [b3], b8, b9, b7⟩

/-! ## Short press -/

theorem short_press_toggle_frame (s : Stopwatch) :
    (short_press_toggle s).g_tenths = s.g_tenths ∧
    (short_press_toggle s).g_ms_accum = s.g_ms_accum ∧
    (short_press_toggle s).g_state =
      (if s.g_state = SW_DONE then SW_DONE
       else if s.g_state = SW_RUNNING then SW_PAUSED else SW_RUNNING) := by
  rw [short_press_toggle]
  split_ifs with a b
  · exact ⟨rfl, rfl, a⟩
  · exact ⟨rfl, rfl, rfl⟩
  · exact ⟨rfl, rfl, rfl⟩

/-- C3: in a reachable state with a press tracked and the long press not
fired, the tick that reads the button released ends in RUNNING from
IDLE_PAUSED or PAUSED, in PAUSED from RUNNING and in DONE from DONE; tenths is
unchanged by that tick and tracking is cleared. -/
theorem short_press_transitions (s : Stopwatch) (hr : Reachable s)
    (ht : s.g_btn_tracking ≠ 0) (hf : s.g_long_fired = 0) :
    (s.g_state = SW_IDLE_PAUSED → (Stopwatch_Tick1ms GPIO_PIN_SET s).g_state = SW_RUNNING) ∧
    (s.g_state = SW_PAUSED → (Stopwatch_Tick1ms GPIO_PIN_SET s).g_state = SW_RUNNING) ∧
    (s.g_state = SW_RUNNING → (Stopwatch_Tick1ms GPIO_PIN_SET s).g_state = SW_PAUSED) ∧
    (s.g_state = SW_DONE → (Stopwatch_Tick1ms GPIO_PIN_SET s).g_state = SW_DONE) ∧
    (Stopwatch_Tick1ms GPIO_PIN_SET s).g_tenths = s.g_tenths ∧
    (Stopwatch_Tick1ms GPIO_PIN_SET s).g_btn_tracking = 0 := by
  have inv := hr.inv
  obtain ⟨b1, b2, b3, b4, b5, _⟩ := buzzer_tick_frame s
  have e2 := tick_long_press_released_short (buzzer_tick_1ms s)
    (by rw [b4]; exact ht) (by rw [b5]; exact hf)
  obtain ⟨t1, t2, t3⟩ := short_press_toggle_frame
    { buzzer_tick_1ms s with g_btn_tracking := 0 }
  have t1' : (short_press_toggle { buzzer_tick_1ms s with g_btn_tracking := 0 }).g_tenths
      = s.g_tenths := t1.trans b2
  have t2' : (short_press_toggle { buzzer_tick_1ms s with g_btn_tracking := 0 }).g_ms_accum
      = s.g_ms_accum := t2.trans b3
  have t3' : (short_press_toggle { buzzer_tick_1ms s with g_btn_tracking := 0 }).g_state =
      (if s.g_state = SW_DONE then SW_DONE
       else if s.g_state = SW_RUNNING then SW_PAUSED else SW_RUNNING) := by
    rw [t3]; show (if (buzzer_tick_1ms s).g_state = _ then _ else _) = _; rw [b1]
  have hidle : s.g_state ≠ SW_RUNNING → s.g_state ≠ SW_DONE →
      (Stopwatch_Tick1ms GPIO_PIN_SET s).g_state = SW_RUNNING ∧
      (Stopwatch_Tick1ms GPIO_PIN_SET s).g_tenths = s.g_tenths := by
    intro h1 h2
    have hs : (short_press_toggle { buzzer_tick_1ms s with g_btn_tracking := 0 }).g_state
        = SW_RUNNING := by rw [t3', if_neg h2, if_neg h1]
    have h0 : s.g_tenths ≠ 0 := fun h => h2 (inv.done_iff_zero.mpr h)
    have ha : s.g_ms_accum = 0 := inv.accum_idle h1
    obtain ⟨r1, r2, _⟩ := blocks_running_no_carry _ hs (by rw [t1']; omega)
      (by rw [t2', ha]; decide)
    rw [Stopwatch_Tick1ms, e2]
    exact ⟨r1, r2.trans t1'⟩
  have hother : (s.g_state = SW_RUNNING ∨ s.g_state = SW_DONE) →
      (Stopwatch_Tick1ms GPIO_PIN_SET s).g_state =
        (if s.g_state = SW_DONE then SW_DONE else SW_PAUSED) ∧
      (Stopwatch_Tick1ms GPIO_PIN_SET s).g_tenths = s.g_tenths := by
    intro h
    have hs : (short_press_toggle { buzzer_tick_1ms s with g_btn_tracking := 0 }).g_state
        = (if s.g_state = SW_DONE then SW_DONE else SW_PAUSED) := by
      rw [t3']
      rcases h with h | h <;> rw [h] <;> rfl
    have hn : (short_press_toggle { buzzer_tick_1ms s with g_btn_tracking := 0 }).g_state
        ≠ SW_RUNNING := by
      rw [hs]; split_ifs <;> decide
    obtain ⟨r1, r2, _⟩ := blocks_not_running _ hn
    rw [Stopwatch_Tick1ms, e2]
    exact ⟨r1.trans hs, r2.trans t1'⟩
  refine ⟨?_, ?_, ?_, ?_, ?_, tick_released_tracking s⟩
  · intro h; exact (hidle (by rw [h]; decide) (by rw [h]; decide)).1
  · intro h; exact (hidle (by rw [h]; decide) (by rw [h]; decide)).1
  · intro h; rw [(hother (Or.inl h)).1, h]; rfl
  · intro h; rw [(hother (Or.inr h)).1, h]; rfl
  · by_cases h1 : s.g_state = SW_RUNNING
    · exact (hother (Or.inl h1)).2
    · by_cases h2 : s.g_state = SW_DONE
      · exact (hother (Or.inr h2)).2
      · exact (hidle h1 h2).2

/-- Witness for C3: the release of a press made right after startup. -/
theorem short_press_transitions_witness :
    Reachable pressedAtStart ∧ pressedAtStart.g_btn_tracking ≠ 0 ∧
    pressedAtStart.g_long_fired = 0 ∧ pressedAtStart.g_state = SW_IDLE_PAUSED ∧
    (Stopwatch_Tick1ms GPIO_PIN_SET pressedAtStart).g_state = SW_RUNNING :=
  ⟨Reachable.step Event.edgePress _ (Reachable.init boot (by decide)), by decide, rfl, rfl,
   (short_press_transitions pressedAtStart
      (Reachable.step Event.edgePress _ (Reachable.init boot (by decide)))
      (by decide) rfl).1 rfl⟩

/-! ## Countdown -/

seal u16 SevenSeg4_SetTenths SEVENSEG4_BLANK in
theorem blocks_running_carry (x : Stopwatch) (h : x.g_state = SW_RUNNING)
    (ht : x.g_tenths > 0) (ha : TENTH_STEP_MS ≤ u16 (x.g_ms_accum + 1)) :
    (tick_timekeeping (tick_pause_blink x)).g_tenths = u16 (x.g_tenths + 65535) ∧
    (tick_timekeeping (tick_pause_blink x)).g_ms_accum = 0 ∧
    (tick_timekeeping (tick_pause_blink x)).g_state =
      (if u16 (x.g_tenths + 65535) = 0 then SW_DONE else SW_RUNNING) ∧
    (u16 (x.g_tenths + 65535) = 0 → x.g_done_latched = 0 →
      (tick_timekeeping (tick_pause_blink x)).g_buz_remain_ms = 1000 ∧
      (tick_timekeeping (tick_pause_blink x)).pa6 = GPIO_PIN_SET ∧
      (tick_timekeeping (tick_pause_blink x)).g_done_latched = 1) := by
  obtain ⟨b1, b2, b3, _, _, _, b7, b8, b9⟩ := tick_pause_blink_frame x
  rw [tick_timekeeping, if_pos (by rw [b1]; exact h), if_pos (by rw [b2]; exact ht)]
  simp only [beep_start_done]
  rw [if_pos (by rw [b3]; exact ha), b2, b7]
  split_ifs with c d
  · exact ⟨rfl, rfl, rfl, fun _ _ => ⟨rfl, rfl, rfl⟩⟩
  · exact ⟨rfl, rfl, rfl, fun _ e => absurd e d⟩
  · exact ⟨rfl, rfl, by rw [← h]; exact b1, fun e _ => absurd e c⟩

/-- With no press tracked, the long-press block does nothing, so the tick is
the buzzer step followed by the two later blocks. -/
theorem tick_not_tracking (level : GPIO_PinState) (s : Stopwatch)
    (h : s.g_btn_tracking = 0) :
    Stopwatch_Tick1ms level s =
      tick_timekeeping (tick_pause_blink (buzzer_tick_1ms s)) ∧
    (Stopwatch_Tick1ms level s).g_btn_tracking = 0 := by
  obtain ⟨_, _, _, b4, _⟩ := buzzer_tick_frame s
  have e := tick_long_press_not_tracking level (buzzer_tick_1ms s) (b4.trans h)
  refine ⟨by rw [Stopwatch_Tick1ms, e], ?_⟩
  rw [(tick_tracker level s).1, e, b4, h]

theorem tickSeq_succ (lv : Nat → GPIO_PinState) (n : Nat) (s : Stopwatch) :
    tickSeq lv (n + 1) s = Stopwatch_Tick1ms (lv n) (tickSeq lv n s) := rfl

/-- Countdown from a RUNNING state with tenths `t`, ms accumulator `a` and no
press tracked: the state after `n` ticks, as long as `a + n ≤ 100 * t`. -/
theorem countdown_state (t a : Nat) (s : Stopwatch) (lv : Nat → GPIO_PinState)
    (h1 : 1 ≤ t) (h2 : t ≤ 1000) (h3 : a < 100)
    (hs : s.g_state = SW_RUNNING) (ht : s.g_tenths = t) (ha : s.g_ms_accum = a)
    (hk : s.g_btn_tracking = 0) :
    ∀ n, a + n ≤ 100 * t →
      (tickSeq lv n s).g_btn_tracking = 0 ∧
      (tickSeq lv n s).g_tenths = t - (a + n) / 100 ∧
      (tickSeq lv n s).g_ms_accum = (a + n) % 100 ∧
      (tickSeq lv n s).g_state = (if a + n < 100 * t then SW_RUNNING else SW_DONE) := by
  intro n
  induction n with
  | zero =>
    intro _
    refine ⟨hk, ht.trans (by omega), ha.trans (by omega), ?_⟩
    rw [if_pos (by omega)]; exact hs
  | succ n ih =>
    intro hn
    obtain ⟨i1, i2, i3, i4⟩ := ih (by omega)
    rw [if_pos (by omega)] at i4
    obtain ⟨e, e4⟩ := tick_not_tracking (lv n) (tickSeq lv n s) i1
    obtain ⟨b1, b2, b3, _⟩ := buzzer_tick_frame (tickSeq lv n s)
    have x1 : (buzzer_tick_1ms (tickSeq lv n s)).g_state = SW_RUNNING := b1.trans i4
    have x2 : (buzzer_tick_1ms (tickSeq lv n s)).g_tenths = t - (a + n) / 100 := b2.trans i2
    have x3 : (buzzer_tick_1ms (tickSeq lv n s)).g_ms_accum = (a + n) % 100 := b3.trans i3
    have hu : u16 ((a + n) % 100 + 1) = (a + n) % 100 + 1 := u16_inc _ (by omega)
    rw [tickSeq_succ]
    refine ⟨e4, ?_⟩
    rw [e]
    by_cases c : (a + n) % 100 + 1 < 100
    · obtain ⟨r1, r2, r3, _⟩ := blocks_running_no_carry _ x1 (by rw [x2]; omega)
        (by rw [x3, hu]; exact c)
      rw [r1, r2, r3, x2, x3, hu, if_pos (by omega)]
      exact ⟨by omega, by omega, rfl⟩
    · have hd : u16 (t - (a + n) / 100 + 65535) = t - (a + n) / 100 - 1 :=
        u16_dec _ (by omega) (by omega)
      obtain ⟨r1, r2, r3, _⟩ := blocks_running_carry _ x1 (by rw [x2]; omega)
        (by rw [x3, hu]; exact Nat.not_lt.mp c)
      rw [r1, r2, r3, x2, hd]
      refine ⟨by omega, by omega, ?_⟩
      by_cases d : a + (n + 1) < 100 * t
      · rw [if_pos d, if_neg (by omega)]
      · rw [if_neg d, if_pos (by omega)]

/-- C1: from a RUNNING state with tenths `t` in `[1,1000]`, ms accumulator 0 and
no press tracked, `n ≤ 100*t` consecutive ticks (no button edge in between,
whatever the button level) leave tenths at `t - n/100`; the state is RUNNING
exactly when `n < 100*t`, and at `n = 100*t` it is DONE with tenths 0.  So 99
ticks leave tenths at `t` and the 100th makes it `t - 1`. -/
theorem countdown_timekeeping (t n : Nat) (s : Stopwatch) (lv : Nat → GPIO_PinState)
    (h1 : 1 ≤ t) (h2 : t ≤ 1000) (hn : n ≤ 100 * t)
    (hs : s.g_state = SW_RUNNING) (ht : s.g_tenths = t) (ha : s.g_ms_accum = 0)
    (hk : s.g_btn_tracking = 0) :
    (tickSeq lv n s).g_tenths = t - n / 100 ∧
    ((tickSeq lv n s).g_state = SW_RUNNING ↔ n < 100 * t) ∧
    (n = 100 * t → (tickSeq lv n s).g_state = SW_DONE ∧ (tickSeq lv n s).g_tenths = 0) ∧
    (tickSeq lv 99 s).g_tenths = t ∧
    (tickSeq lv 100 s).g_tenths = t - 1 := by
  obtain ⟨_, i2, _, i4⟩ :=
    countdown_state t 0 s lv h1 h2 (by decide) hs ht ha hk n (by omega)
  obtain ⟨_, j2, _⟩ :=
    countdown_state t 0 s lv h1 h2 (by decide) hs ht ha hk 99 (by omega)
  obtain ⟨_, k2, _⟩ :=
    countdown_state t 0 s lv h1 h2 (by decide) hs ht ha hk 100 (by omega)
  rw [Nat.zero_add] at i2 i4 j2 k2
  refine ⟨i2, ?_, ?_, by rw [j2]; omega, by rw [k2]⟩
  · rw [i4]
    constructor
    · intro h
      by_contra c
      rw [if_neg c] at h
      cases h
    · intro h
      rw [if_pos h]
  · intro h
    rw [i4, i2, if_neg (by omega)]
    exact ⟨rfl, by omega⟩

/-- Witness for C1: a RUNNING state with tenths 5 and three ticks. -/
theorem countdown_timekeeping_witness :
    (tickSeq (fun _ => GPIO_PIN_SET) 3 { boot with g_state := SW_RUNNING, g_tenths := 5 }).g_tenths
      = 5 - 3 / 100 :=
  (countdown_timekeeping 5 3 { boot with g_state := SW_RUNNING, g_tenths := 5 }
    (fun _ => GPIO_PIN_SET) (by decide) (by decide) (by decide) rfl rfl rfl rfl).1

/-! ## A held press -/

theorem tick_long_press_pressed_quiet (s : Stopwatch) (ht : s.g_btn_tracking ≠ 0)
    (hq : ¬ longPressFires GPIO_PIN_RESET s) :
    tick_long_press GPIO_PIN_RESET s =
      (if s.g_hold_ms < 0xFFFF then { s with g_hold_ms := u16 (s.g_hold_ms + 1) } else s) := by
  rw [tick_long_press, if_pos ht, if_pos rfl]
  by_cases c : s.g_hold_ms < 0xFFFF
  · simp only [if_pos c]
    rw [if_neg]
    rintro ⟨hf, hh⟩
    exact hq ⟨ht, rfl, hf, by rw [if_pos c]; exact hh⟩
  · simp only [if_neg c]
    rw [if_neg]
    rintro ⟨hf, hh⟩
    exact hq ⟨ht, rfl, hf, by rw [if_neg c]; exact hh⟩

/-- Summary of a tick that reads the button pressed while a press is tracked. -/
theorem tick_pressed (s : Stopwatch) (ht : s.g_btn_tracking ≠ 0) :
    (Stopwatch_Tick1ms GPIO_PIN_RESET s).g_btn_tracking = s.g_btn_tracking ∧
    (Stopwatch_Tick1ms GPIO_PIN_RESET s).g_hold_ms =
      (if s.g_hold_ms < 0xFFFF then u16 (s.g_hold_ms + 1) else s.g_hold_ms) ∧
    (longPressFires GPIO_PIN_RESET s →
      (Stopwatch_Tick1ms GPIO_PIN_RESET s).g_long_fired = 1 ∧
      (Stopwatch_Tick1ms GPIO_PIN_RESET s).g_state = SW_IDLE_PAUSED ∧
      (Stopwatch_Tick1ms GPIO_PIN_RESET s).g_tenths = 1000) ∧
    (¬ longPressFires GPIO_PIN_RESET s →
      (Stopwatch_Tick1ms GPIO_PIN_RESET s).g_long_fired = s.g_long_fired ∧
      (s.g_state ≠ SW_RUNNING →
        (Stopwatch_Tick1ms GPIO_PIN_RESET s).g_state = s.g_state ∧
        (Stopwatch_Tick1ms GPIO_PIN_RESET s).g_tenths = s.g_tenths)) := by
  obtain ⟨b1, b2, _, b4, b5, b6, _⟩ := buzzer_tick_frame s
  obtain ⟨k1, k2, k3⟩ := tick_tracker GPIO_PIN_RESET s
  have hb : (buzzer_tick_1ms s).g_btn_tracking ≠ 0 := by rw [b4]; exact ht
  by_cases hq : longPressFires GPIO_PIN_RESET s
  · have hq' := (longPressFires_buzzer_tick GPIO_PIN_RESET s).mpr hq
    have e := tick_long_press_fires GPIO_PIN_RESET _ hq'
    obtain ⟨c1, c2, _, _, _, _, _, _, _, c10, c11, c12⟩ := after_reset
      { (if (buzzer_tick_1ms s).g_hold_ms < 0xFFFF
          then { buzzer_tick_1ms s with g_hold_ms := u16 ((buzzer_tick_1ms s).g_hold_ms + 1) }
          else buzzer_tick_1ms s) with g_long_fired := 1 }
    have et : Stopwatch_Tick1ms GPIO_PIN_RESET s = tick_timekeeping (tick_pause_blink
        (reset_to_startup
          { (if (buzzer_tick_1ms s).g_hold_ms < 0xFFFF
              then { buzzer_tick_1ms s with
                      g_hold_ms := u16 ((buzzer_tick_1ms s).g_hold_ms + 1) }
              else buzzer_tick_1ms s) with g_long_fired := 1 })) := by
      rw [Stopwatch_Tick1ms, e]
    refine ⟨?_, ?_, fun _ => ⟨by rw [et, c11], by rw [et, c1], by rw [et, c2]⟩,
      fun h => absurd hq h⟩
    · rw [et, c10]
      show (if _ then _ else _ : Stopwatch).g_btn_tracking = _
      split_ifs <;> exact b4
    · rw [et, c12, b6]
      show (if _ then _ else _ : Stopwatch).g_hold_ms = _
      split_ifs <;> first | rfl | exact b6
  · have hq' : ¬ longPressFires GPIO_PIN_RESET (buzzer_tick_1ms s) :=
      fun h => hq ((longPressFires_buzzer_tick GPIO_PIN_RESET s).mp h)
    have e := tick_long_press_pressed_quiet _ hb hq'
    have x1 : (tick_long_press GPIO_PIN_RESET (buzzer_tick_1ms s)).g_state = s.g_state := by
      rw [e]; split_ifs <;> exact b1
    have x2 : (tick_long_press GPIO_PIN_RESET (buzzer_tick_1ms s)).g_tenths = s.g_tenths := by
      rw [e]; split_ifs <;> exact b2
    refine ⟨?_, ?_, fun h => absurd h hq, fun _ => ⟨?_, ?_⟩⟩
    · rw [k1, e]; split_ifs <;> exact b4
    · rw [k3, e, b6]; split_ifs <;> first | rfl | exact b6
    · rw [k2, e]; split_ifs <;> exact b5
    · intro hs
      obtain ⟨r1, r2, _⟩ := blocks_not_running
        (tick_long_press GPIO_PIN_RESET (buzzer_tick_1ms s)) (by rw [x1]; exact hs)
      rw [Stopwatch_Tick1ms]
      exact ⟨r1.trans x1, r2.trans x2⟩

theorem hold_step (j : Nat) :
    (if (if j < 65535 then j else 65535) < 0xFFFF
      then u16 ((if j < 65535 then j else 65535) + 1)
      else (if j < 65535 then j else 65535)) =
    (if j + 1 < 65535 then j + 1 else 65535) := by
  unfold u16
  split_ifs <;> omega

theorem fires_iff_of_tracker (r : Stopwatch) (j : Nat) (i1 : r.g_btn_tracking = 1)
    (i2 : r.g_hold_ms = if j < 65535 then j else 65535)
    (i3 : r.g_long_fired = if 1500 ≤ j then 1 else 0) :
    longPressFires GPIO_PIN_RESET r ↔ j + 1 = 1500 := by
  unfold longPressFires LONGPRESS_MS
  rw [i1, i2, i3, hold_step]
  constructor
  · rintro ⟨_, _, h3, h4⟩
    split_ifs at h3 h4 <;> omega
  · intro h
    refine ⟨by decide, rfl, ?_, ?_⟩ <;> split_ifs <;> omega

/-- The tracker and the state `j` pressed ticks after a press edge. -/
theorem held_tracker (s : Stopwatch) (j : Nat) :
    (tickSeq (fun _ => GPIO_PIN_RESET) j (Stopwatch_ButtonEdgePress s)).g_btn_tracking = 1 ∧
    (tickSeq (fun _ => GPIO_PIN_RESET) j (Stopwatch_ButtonEdgePress s)).g_hold_ms =
      (if j < 65535 then j else 65535) ∧
    (tickSeq (fun _ => GPIO_PIN_RESET) j (Stopwatch_ButtonEdgePress s)).g_long_fired =
      (if 1500 ≤ j then 1 else 0) ∧
    (1500 ≤ j →
      (tickSeq (fun _ => GPIO_PIN_RESET) j (Stopwatch_ButtonEdgePress s)).g_state
        = SW_IDLE_PAUSED ∧
      (tickSeq (fun _ => GPIO_PIN_RESET) j (Stopwatch_ButtonEdgePress s)).g_tenths = 1000) := by
  induction j with
  | zero => exact ⟨rfl, rfl, rfl, fun h => absurd h (by decide)⟩
  | succ j ih =>
    obtain ⟨i1, i2, i3, i4⟩ := ih
    obtain ⟨p1, p2, p3, p4⟩ := tick_pressed
      (tickSeq (fun _ => GPIO_PIN_RESET) j (Stopwatch_ButtonEdgePress s))
      (by rw [i1]; decide)
    have hfire := fires_iff_of_tracker
      (tickSeq (fun _ => GPIO_PIN_RESET) j (Stopwatch_ButtonEdgePress s)) j i1 i2 i3
    show (Stopwatch_Tick1ms GPIO_PIN_RESET
        (tickSeq (fun _ => GPIO_PIN_RESET) j (Stopwatch_ButtonEdgePress s))).g_btn_tracking = 1 ∧
      (Stopwatch_Tick1ms GPIO_PIN_RESET
        (tickSeq (fun _ => GPIO_PIN_RESET) j (Stopwatch_ButtonEdgePress s))).g_hold_ms =
        (if j + 1 < 65535 then j + 1 else 65535) ∧
      (Stopwatch_Tick1ms GPIO_PIN_RESET
        (tickSeq (fun _ => GPIO_PIN_RESET) j (Stopwatch_ButtonEdgePress s))).g_long_fired =
        (if 1500 ≤ j + 1 then 1 else 0) ∧
      (1500 ≤ j + 1 →
        (Stopwatch_Tick1ms GPIO_PIN_RESET
          (tickSeq (fun _ => GPIO_PIN_RESET) j (Stopwatch_ButtonEdgePress s))).g_state
          = SW_IDLE_PAUSED ∧
        (Stopwatch_Tick1ms GPIO_PIN_RESET
          (tickSeq (fun _ => GPIO_PIN_RESET) j (Stopwatch_ButtonEdgePress s))).g_tenths = 1000)
    refine ⟨p1.trans i1, ?_, ?_, ?_⟩
    · rw [p2, i2, hold_step]
    · by_cases f : j + 1 = 1500
      · rw [(p3 (hfire.mpr f)).1, if_pos (by omega)]
      · rw [(p4 (fun h => f (hfire.mp h))).1, i3]
        split_ifs <;> first | rfl | omega
    · intro h
      by_cases f : j + 1 = 1500
      · exact (p3 (hfire.mpr f)).2
      · obtain ⟨s1, s2⟩ := i4 (by omega)
        obtain ⟨r1, r2⟩ := (p4 (fun h => f (hfire.mp h))).2 (by rw [s1]; decide)
        exact ⟨r1.trans s1, r2.trans s2⟩

/-- C6: after a press edge in any state, `n ≥ 1500` ticks that read the button
pressed (also past the saturation of the hold counter) and one tick that reads
it released: the long-press reset runs in pressed tick number `i` exactly when
`i = 1500`; from tick 1500 on the state is IDLE_PAUSED; the release tick runs
neither the short-press toggle nor the reset, clears tracking and leaves the
state IDLE_PAUSED. -/
theorem long_press_fires_once (s : Stopwatch) (n : Nat) (hn : 1500 ≤ n) :
    (∀ i, 1 ≤ i → i ≤ n →
      (longPressFires GPIO_PIN_RESET
        (tickSeq (fun _ => GPIO_PIN_RESET) (i - 1) (Stopwatch_ButtonEdgePress s)) ↔ i = 1500)) ∧
    (∀ i, 1500 ≤ i → i ≤ n →
      (tickSeq (fun _ => GPIO_PIN_RESET) i (Stopwatch_ButtonEdgePress s)).g_state
        = SW_IDLE_PAUSED) ∧
    ¬ shortPressFires GPIO_PIN_SET
        (tickSeq (fun _ => GPIO_PIN_RESET) n (Stopwatch_ButtonEdgePress s)) ∧
    ¬ longPressFires GPIO_PIN_SET
        (tickSeq (fun _ => GPIO_PIN_RESET) n (Stopwatch_ButtonEdgePress s)) ∧
    (Stopwatch_Tick1ms GPIO_PIN_SET
      (tickSeq (fun _ => GPIO_PIN_RESET) n (Stopwatch_ButtonEdgePress s))).g_state
        = SW_IDLE_PAUSED ∧
    (Stopwatch_Tick1ms GPIO_PIN_SET
      (tickSeq (fun _ => GPIO_PIN_RESET) n (Stopwatch_ButtonEdgePress s))).g_state
        ≠ SW_RUNNING ∧
    (Stopwatch_Tick1ms GPIO_PIN_SET
      (tickSeq (fun _ => GPIO_PIN_RESET) n (Stopwatch_ButtonEdgePress s))).g_btn_tracking = 0 := by
  obtain ⟨n1, n2, n3, n4⟩ := held_tracker s n
  rw [if_pos hn] at n3
  obtain ⟨ns, _⟩ := n4 hn
  have hfin : (Stopwatch_Tick1ms GPIO_PIN_SET
      (tickSeq (fun _ => GPIO_PIN_RESET) n (Stopwatch_ButtonEdgePress s))).g_state
        = SW_IDLE_PAUSED := by
    rw [tick_released_fired_state _ (by rw [n3]; decide) (by rw [ns]; decide), ns]
  refine ⟨?_, ?_, ?_, ?_, hfin, by rw [hfin]; decide, tick_released_tracking _⟩
  · intro i h1 _
    obtain ⟨i1, i2, i3, _⟩ := held_tracker s (i - 1)
    rw [fires_iff_of_tracker _ (i - 1) i1 i2 i3]
    omega
  · intro i h1 _
    exact ((held_tracker s i).2.2.2 h1).1
  · rintro ⟨_, _, h3⟩
    rw [n3] at h3; cases h3
  · rintro ⟨_, h2, _⟩
    cases h2

/-- Witness for C6: a press held for 1500 ticks after startup. -/
theorem long_press_fires_once_witness :
    (1500 : Nat) ≤ 1500 ∧
    (Stopwatch_Tick1ms GPIO_PIN_SET
      (tickSeq (fun _ => GPIO_PIN_RESET) 1500
        (Stopwatch_ButtonEdgePress (Stopwatch_Init boot)))).g_state = SW_IDLE_PAUSED :=
  ⟨by decide, (long_press_fires_once (Stopwatch_Init boot) 1500 (by decide)).2.2.2.2.1⟩

/-! ## The state `heldState` is reached by holding the button after startup -/

theorem Reachable_tickSeq (lv : Nat → GPIO_PinState) (s : Stopwatch) (h : Reachable s) :
    ∀ n, Reachable (tickSeq lv n s) := by
  intro n
  induction n with
  | zero => exact h
  | succ n ih => exact Reachable.step (Event.tick (lv n)) _ ih

theorem held_step (j : Nat) (h : j + 1 < 1500) :
    Stopwatch_Tick1ms GPIO_PIN_RESET (heldFor j) = heldFor (j + 1) := by
  have hq : ¬ longPressFires GPIO_PIN_RESET (heldFor j) := by
    rintro ⟨_, _, _, h4⟩
    have h4' : LONGPRESS_MS ≤ (if j < 0xFFFF then u16 (j + 1) else j) := h4
    rw [if_pos (by omega), u16_inc j (by omega)] at h4'
    unfold LONGPRESS_MS at h4'
    omega
  have e1 : buzzer_tick_1ms (heldFor j) = heldFor j := rfl
  have e2 := tick_long_press_pressed_quiet (heldFor j) (show (1 : Nat) ≠ 0 by decide) hq
  have e3 : (if (heldFor j).g_hold_ms < 0xFFFF
      then { heldFor j with g_hold_ms := u16 ((heldFor j).g_hold_ms + 1) }
      else heldFor j) = heldFor (j + 1) := by
    show (if j < 0xFFFF then heldFor (u16 (j + 1)) else heldFor j) = heldFor (j + 1)
    rw [if_pos (by omega), u16_inc j (by omega)]
  rw [Stopwatch_Tick1ms, e1, e2]
  exact (congrArg (fun x => tick_timekeeping (tick_pause_blink x)) e3).trans rfl

theorem held_state_trace (j : Nat) (h : j < 1500) :
    tickSeq (fun _ => GPIO_PIN_RESET) j (Stopwatch_ButtonEdgePress (Stopwatch_Init boot)) =
      heldFor j := by
  induction j with
  | zero => rfl
  | succ j ih =>
    show Stopwatch_Tick1ms GPIO_PIN_RESET (tickSeq (fun _ => GPIO_PIN_RESET) j _) = _
    rw [ih (by omega), held_step j h]

/-- The state `heldState` is the one reached from startup by a press edge and
1499 ticks that read the button pressed. -/
theorem heldState_reachable :
    heldState = tickSeq (fun _ => GPIO_PIN_RESET) 1499
      (Stopwatch_ButtonEdgePress (Stopwatch_Init boot)) ∧
    Reachable heldState := by
  have e := held_state_trace 1499 (by decide)
  have r : Reachable (tickSeq (fun _ => GPIO_PIN_RESET) 1499
      (Stopwatch_ButtonEdgePress (Stopwatch_Init boot))) :=
    Reachable_tickSeq _ _
      (Reachable.step Event.edgePress _ (Reachable.init boot (by decide))) 1499
  refine ⟨e.symm, ?_⟩
  rw [e] at r
  exact r

/-- Counterexample to C5 as stated: in `heldState` (press tracked, hold counter
1499, long press not fired; reached from startup by a press edge and 1499
pressed ticks) the tick that reads the button pressed fires the
long press, yet the tracking flag is still 1 afterwards. -/
theorem tracking_still_set_after_long_press :
    Reachable heldState ∧
    longPressFires GPIO_PIN_RESET heldState ∧
    (Stopwatch_Tick1ms GPIO_PIN_RESET heldState).g_btn_tracking = 1 ∧
    ¬ (∀ (level : GPIO_PinState) (s : Stopwatch), longPressFires level s →
        (Stopwatch_Tick1ms level s).g_btn_tracking = 0) := by
  refine ⟨heldState_reachable.2, by decide, by decide, ?_⟩
  intro h
  have := h GPIO_PIN_RESET heldState (by decide)
  revert this
  decide

/-- C5 (amended): in every state, the tick in which the long press fires leaves
the tracking flag as it was (set) and sets the long-fired latch, together with
tenths 1000, state IDLE_PAUSED, buzzer off (no time remaining, line low) and
done latch cleared; the tracking flag is cleared by the tick that reads the
button released, and that tick leaves the state IDLE_PAUSED. -/
theorem long_press_keeps_tracking (level : GPIO_PinState) (s : Stopwatch)
    (h : longPressFires level s) :
    (Stopwatch_Tick1ms level s).g_btn_tracking = s.g_btn_tracking ∧
    (Stopwatch_Tick1ms level s).g_btn_tracking ≠ 0 ∧
    (Stopwatch_Tick1ms level s).g_long_fired = 1 ∧
    (Stopwatch_Tick1ms level s).g_tenths = 1000 ∧
    (Stopwatch_Tick1ms level s).g_state = SW_IDLE_PAUSED ∧
    (Stopwatch_Tick1ms level s).g_buz_remain_ms = 0 ∧
    (Stopwatch_Tick1ms level s).pa6 = GPIO_PIN_RESET ∧
    (Stopwatch_Tick1ms level s).g_done_latched = 0 ∧
    (Stopwatch_Tick1ms GPIO_PIN_SET (Stopwatch_Tick1ms level s)).g_btn_tracking = 0 ∧
    (Stopwatch_Tick1ms GPIO_PIN_SET (Stopwatch_Tick1ms level s)).g_state = SW_IDLE_PAUSED := by
  have hb := (longPressFires_buzzer_tick level s).mpr h
  obtain ⟨c1, c2, c3, c4, c5, c6, c7, c8, c9, c10, c11, c12⟩ := after_reset
    { (if (buzzer_tick_1ms s).g_hold_ms < 0xFFFF
        then { buzzer_tick_1ms s with g_hold_ms := u16 ((buzzer_tick_1ms s).g_hold_ms + 1) }
        else buzzer_tick_1ms s) with g_long_fired := 1 }
  have e : Stopwatch_Tick1ms level s = tick_timekeeping (tick_pause_blink (reset_to_startup
    { (if (buzzer_tick_1ms s).g_hold_ms < 0xFFFF
        then { buzzer_tick_1ms s with g_hold_ms := u16 ((buzzer_tick_1ms s).g_hold_ms + 1) }
        else buzzer_tick_1ms s) with g_long_fired := 1 })) := by
    rw [Stopwatch_Tick1ms, tick_long_press_fires level _ hb]
  have ht : (Stopwatch_Tick1ms level s).g_btn_tracking = s.g_btn_tracking := by
    rw [e, c10]
    show (if _ then _ else _ : Stopwatch).g_btn_tracking = _
    split_ifs
    · exact (buzzer_tick_frame s).2.2.2.1
    · exact (buzzer_tick_frame s).2.2.2.1
  have hf : (Stopwatch_Tick1ms level s).g_long_fired = 1 := by rw [e, c11]
  have hs : (Stopwatch_Tick1ms level s).g_state = SW_IDLE_PAUSED := by rw [e, c1]
  refine ⟨ht, ?_, hf, ?_, hs, ?_, ?_, ?_, tick_released_tracking _, ?_⟩
  · rw [ht]; exact h.1
  · rw [e, c2]
  · rw [e, c7]
  · rw [e, c8]
  · rw [e, c6]
  · rw [tick_released_fired_state _ (by rw [hf]; decide) (by rw [hs]; decide), hs]

/-- Witness for C5 (amended): the 1500th tick of a held press. -/
theorem long_press_keeps_tracking_witness :
    longPressFires GPIO_PIN_RESET heldState ∧
    (Stopwatch_Tick1ms GPIO_PIN_RESET heldState).g_btn_tracking = heldState.g_btn_tracking ∧
    (Stopwatch_Tick1ms GPIO_PIN_RESET heldState).g_btn_tracking ≠ 0 :=
  ⟨by decide,
   (long_press_keeps_tracking GPIO_PIN_RESET heldState (by decide)).1,
   (long_press_keeps_tracking GPIO_PIN_RESET heldState (by decide)).2.1⟩

/-! ## Paused blinking -/

seal u16 SevenSeg4_SetTenths SEVENSEG4_BLANK in
theorem pause_blink_paused (x : Stopwatch) (h : x.g_state = SW_PAUSED)
    (hb : x.g_pause_blink_ms < 500) :
    (tick_pause_blink x).g_pause_blink_ms =
      (if 500 ≤ x.g_pause_blink_ms + 1 then 0 else x.g_pause_blink_ms + 1) ∧
    (tick_pause_blink x).g_pause_show =
      (if 500 ≤ x.g_pause_blink_ms + 1 then (if x.g_pause_show ≠ 0 then 0 else 1)
       else x.g_pause_show) ∧
    (tick_pause_blink x).disp =
      (if (tick_pause_blink x).g_pause_show ≠ 0 then SevenSeg4_SetTenths x.g_tenths x.disp
       else SevenSeg4_SetTenths SEVENSEG4_BLANK x.disp) := by
  have hu : u16 (x.g_pause_blink_ms + 1) = x.g_pause_blink_ms + 1 := u16_inc _ (by omega)
  have hlt : x.g_pause_blink_ms < 0xFFFF := by omega
  simp only [tick_pause_blink, if_pos h, if_pos hlt, hu, PAUSE_BLINK_MS, ge_iff_le]
  split_ifs <;> exact ⟨rfl, rfl, rfl⟩

/-- The two later blocks of a tick when the state before them is PAUSED. -/
theorem blocks_paused (x : Stopwatch) (h : x.g_state = SW_PAUSED)
    (hb : x.g_pause_blink_ms < 500) (ht : x.g_tenths ≤ 1000) :
    (tick_timekeeping (tick_pause_blink x)).g_state = SW_PAUSED ∧
    (tick_timekeeping (tick_pause_blink x)).g_tenths = x.g_tenths ∧
    (tick_timekeeping (tick_pause_blink x)).g_pause_blink_ms =
      (if 500 ≤ x.g_pause_blink_ms + 1 then 0 else x.g_pause_blink_ms + 1) ∧
    (tick_timekeeping (tick_pause_blink x)).g_pause_show =
      (if 500 ≤ x.g_pause_blink_ms + 1 then (if x.g_pause_show ≠ 0 then 0 else 1)
       else x.g_pause_show) ∧
    (tick_timekeeping (tick_pause_blink x)).disp.g_disp_tenths =
      (if (tick_timekeeping (tick_pause_blink x)).g_pause_show ≠ 0 then x.g_tenths
       else SEVENSEG4_BLANK) := by
  obtain ⟨p1, p2, p3⟩ := pause_blink_paused x h hb
  obtain ⟨b1, b2, _⟩ := tick_pause_blink_frame x
  have hn : (tick_pause_blink x).g_state ≠ SW_RUNNING := by rw [b1, h]; decide
  rw [tick_timekeeping_not_running _ hn]
  refine ⟨b1.trans h, b2, p1, p2, ?_⟩
  show (tick_pause_blink x).disp.g_disp_tenths =
    (if (tick_pause_blink x).g_pause_show ≠ 0 then x.g_tenths else SEVENSEG4_BLANK)
  rw [p3]
  split_ifs
  · exact SetTenths_val _ _ ht
  · exact SetTenths_blank _

theorem short_press_toggle_blink (s : Stopwatch) :
    (short_press_toggle s).g_pause_blink_ms = s.g_pause_blink_ms ∧
    (short_press_toggle s).g_pause_show = s.g_pause_show := by
  rw [short_press_toggle]
  split_ifs <;> exact ⟨rfl, rfl⟩

theorem blink_parity (k : Nat) :
    (if 500 ≤ k % 500 + 1 then 0 else k % 500 + 1) = (k + 1) % 500 ∧
    (if 500 ≤ k % 500 + 1 then (if (if (k / 500) % 2 = 0 then 1 else 0) ≠ 0 then 0 else 1)
      else (if (k / 500) % 2 = 0 then 1 else 0)) =
      (if ((k + 1) / 500) % 2 = 0 then 1 else 0) := by
  constructor
  · split_ifs <;> omega
  · split_ifs <;> omega

/-- State after `k ≥ 1` ticks, the first of which is the short press that
pauses a reachable RUNNING state. -/
theorem paused_state (s : Stopwatch) (lv : Nat → GPIO_PinState) (hr : Reachable s)
    (hs : s.g_state = SW_RUNNING) (ht : s.g_btn_tracking ≠ 0) (hf : s.g_long_fired = 0)
    (h0 : lv 0 = GPIO_PIN_SET) (k : Nat) (hk : 1 ≤ k) :
    (tickSeq lv k s).g_state = SW_PAUSED ∧
    (tickSeq lv k s).g_tenths = s.g_tenths ∧
    (tickSeq lv k s).g_btn_tracking = 0 ∧
    (tickSeq lv k s).g_pause_blink_ms = k % 500 ∧
    (tickSeq lv k s).g_pause_show = (if (k / 500) % 2 = 0 then 1 else 0) ∧
    (tickSeq lv k s).disp.g_disp_tenths =
      (if (k / 500) % 2 = 0 then s.g_tenths else SEVENSEG4_BLANK) := by
  have inv := hr.inv
  induction k, hk using Nat.le_induction with
  | base =>
    show (Stopwatch_Tick1ms (lv 0) s).g_state = SW_PAUSED ∧
      (Stopwatch_Tick1ms (lv 0) s).g_tenths = s.g_tenths ∧
      (Stopwatch_Tick1ms (lv 0) s).g_btn_tracking = 0 ∧
      (Stopwatch_Tick1ms (lv 0) s).g_pause_blink_ms = 1 % 500 ∧
      (Stopwatch_Tick1ms (lv 0) s).g_pause_show = (if (1 / 500) % 2 = 0 then 1 else 0) ∧
      (Stopwatch_Tick1ms (lv 0) s).disp.g_disp_tenths =
        (if (1 / 500) % 2 = 0 then s.g_tenths else SEVENSEG4_BLANK)
    rw [h0]
    obtain ⟨b1, b2, _, b4, b5, _, _, b8, b9, _⟩ := buzzer_tick_frame s
    have e2 := tick_long_press_released_short (buzzer_tick_1ms s)
      (by rw [b4]; exact ht) (by rw [b5]; exact hf)
    obtain ⟨t1, _, t3⟩ := short_press_toggle_frame
      { buzzer_tick_1ms s with g_btn_tracking := 0 }
    obtain ⟨t4, t5⟩ := short_press_toggle_blink
      { buzzer_tick_1ms s with g_btn_tracking := 0 }
    obtain ⟨i1, i2⟩ := inv.blink_idle (by rw [hs]; decide)
    have x1 : (short_press_toggle { buzzer_tick_1ms s with g_btn_tracking := 0 }).g_state
        = SW_PAUSED := by
      rw [t3]
      show (if (buzzer_tick_1ms s).g_state = SW_DONE then SW_DONE
        else if (buzzer_tick_1ms s).g_state = SW_RUNNING then SW_PAUSED else SW_RUNNING) = _
      rw [b1, hs]; rfl
    have x2 : (short_press_toggle { buzzer_tick_1ms s with g_btn_tracking := 0 }).g_tenths
        = s.g_tenths := t1.trans b2
    have x3 : (short_press_toggle
        { buzzer_tick_1ms s with g_btn_tracking := 0 }).g_pause_blink_ms = 0 :=
      t4.trans (b8.trans i1)
    have x4 : (short_press_toggle
        { buzzer_tick_1ms s with g_btn_tracking := 0 }).g_pause_show = 1 :=
      t5.trans (b9.trans i2)
    obtain ⟨r1, r2, r3, r4, r5⟩ := blocks_paused _ x1 (by rw [x3]; decide)
      (by rw [x2]; exact inv.tenths_le)
    have e : Stopwatch_Tick1ms GPIO_PIN_SET s = tick_timekeeping (tick_pause_blink
        (short_press_toggle { buzzer_tick_1ms s with g_btn_tracking := 0 })) := by
      rw [Stopwatch_Tick1ms, e2]
    rw [x3, x4] at r4
    rw [x3] at r3
    have r4' : (tick_timekeeping (tick_pause_blink
        (short_press_toggle { buzzer_tick_1ms s with g_btn_tracking := 0 }))).g_pause_show
        = 1 := r4
    rw [r4', x2] at r5
    refine ⟨by rw [e]; exact r1, by rw [e]; exact r2.trans x2, tick_released_tracking s,
      by rw [e]; exact r3, by rw [e]; exact r4', by rw [e]; exact r5⟩
  | succ k hk ih =>
    obtain ⟨i1, i2, i3, i4, i5, i6⟩ := ih
    obtain ⟨e, e4⟩ := tick_not_tracking (lv k) (tickSeq lv k s) i3
    obtain ⟨b1, b2, _, _, _, _, _, b8, b9, _⟩ := buzzer_tick_frame (tickSeq lv k s)
    have x1 := b1.trans i1
    have x2 := b2.trans i2
    have x3 := b8.trans i4
    have x4 := b9.trans i5
    obtain ⟨r1, r2, r3, r4, r5⟩ := blocks_paused _ x1 (by rw [x3]; omega)
      (by rw [x2]; exact inv.tenths_le)
    obtain ⟨a1, a2⟩ := blink_parity k
    rw [x3, a1] at r3
    rw [x3, x4, a2] at r4
    rw [r4, x2] at r5
    show (Stopwatch_Tick1ms (lv k) (tickSeq lv k s)).g_state = SW_PAUSED ∧
      (Stopwatch_Tick1ms (lv k) (tickSeq lv k s)).g_tenths = s.g_tenths ∧
      (Stopwatch_Tick1ms (lv k) (tickSeq lv k s)).g_btn_tracking = 0 ∧
      (Stopwatch_Tick1ms (lv k) (tickSeq lv k s)).g_pause_blink_ms = (k + 1) % 500 ∧
      (Stopwatch_Tick1ms (lv k) (tickSeq lv k s)).g_pause_show =
        (if ((k + 1) / 500) % 2 = 0 then 1 else 0) ∧
      (Stopwatch_Tick1ms (lv k) (tickSeq lv k s)).disp.g_disp_tenths =
        (if ((k + 1) / 500) % 2 = 0 then s.g_tenths else SEVENSEG4_BLANK)
    refine ⟨by rw [e]; exact r1, by rw [e]; exact r2.trans x2, e4,
      by rw [e]; exact r3, by rw [e]; exact r4, ?_⟩
    rw [e, r5]
    split_ifs <;> first | rfl | omega

/-- C7: let tick 1 be the tick in which a short press (release read while a
press is tracked and the long press has not fired) pauses a reachable RUNNING
state, followed by ticks with no button edge.  After every tick `k ≥ 1` the
state is PAUSED with tenths unchanged; the show flag changes in tick `k`
exactly when `k` is a multiple of 500; the value stored in the display driver
by tick `k` is tenths when `k/500` is even and BLANK when it is odd. -/
theorem paused_blinking (s : Stopwatch) (lv : Nat → GPIO_PinState) (hr : Reachable s)
    (hs : s.g_state = SW_RUNNING) (ht : s.g_btn_tracking ≠ 0) (hf : s.g_long_fired = 0)
    (h0 : lv 0 = GPIO_PIN_SET) (k : Nat) (hk : 1 ≤ k) :
    (tickSeq lv k s).g_state = SW_PAUSED ∧
    (tickSeq lv k s).g_tenths = s.g_tenths ∧
    ((tickSeq lv k s).g_pause_show ≠ (tickSeq lv (k - 1) s).g_pause_show ↔ k % 500 = 0) ∧
    ((k / 500) % 2 = 0 → (tickSeq lv k s).disp.g_disp_tenths = s.g_tenths) ∧
    ((k / 500) % 2 = 1 → (tickSeq lv k s).disp.g_disp_tenths = SEVENSEG4_BLANK) := by
  obtain ⟨p1, p2, _, _, p5, p6⟩ := paused_state s lv hr hs ht hf h0 k hk
  have hprev : (tickSeq lv (k - 1) s).g_pause_show =
      (if ((k - 1) / 500) % 2 = 0 then 1 else 0) := by
    by_cases c : 1 ≤ k - 1
    · exact (paused_state s lv hr hs ht hf h0 (k - 1) c).2.2.2.2.1
    · have : k - 1 = 0 := by omega
      rw [this]
      exact (hr.inv.blink_idle (by rw [hs]; decide)).2
  refine ⟨p1, p2, ?_, ?_, ?_⟩
  · rw [p5, hprev]
    split_ifs <;> omega
  · intro h; rw [p6, if_pos h]
  · intro h; rw [p6, if_neg (by omega)]

/-- Witness for C7: after startup, a tap starts the countdown and a second
press is tracked; its release is tick 1. -/
theorem paused_blinking_witness :
    Reachable runningPressed ∧ runningPressed.g_state = SW_RUNNING ∧
    (tickSeq (fun _ => GPIO_PIN_SET) 1 runningPressed).g_state = SW_PAUSED ∧
    (tickSeq (fun _ => GPIO_PIN_SET) 1 runningPressed).g_tenths = runningPressed.g_tenths :=
  ⟨runningPressed_reachable, by decide,
   (paused_blinking runningPressed (fun _ => GPIO_PIN_SET) runningPressed_reachable
      (by decide) (by decide) (by decide) rfl 1 (by decide)).1,
   (paused_blinking runningPressed (fun _ => GPIO_PIN_SET) runningPressed_reachable
      (by decide) (by decide) (by decide) rfl 1 (by decide)).2.1⟩

/-! ## Display value selection -/

/-- C8: after every tick started in a reachable state, the value stored in the
display driver is BLANK exactly when the final state is PAUSED with the show
flag 0, and otherwise it is the final tenths; when the final state is not
PAUSED (IDLE_PAUSED, RUNNING or DONE) the blink counter is 0 and the show flag
is 1. -/
theorem display_value_selection (level : GPIO_PinState) (s : Stopwatch) (hr : Reachable s) :
    ((Stopwatch_Tick1ms level s).disp.g_disp_tenths = SEVENSEG4_BLANK ↔
      ((Stopwatch_Tick1ms level s).g_state = SW_PAUSED ∧
       (Stopwatch_Tick1ms level s).g_pause_show = 0)) ∧
    (¬ ((Stopwatch_Tick1ms level s).g_state = SW_PAUSED ∧
        (Stopwatch_Tick1ms level s).g_pause_show = 0) →
      (Stopwatch_Tick1ms level s).disp.g_disp_tenths = (Stopwatch_Tick1ms level s).g_tenths) ∧
    ((Stopwatch_Tick1ms level s).g_state = SW_IDLE_PAUSED ∨
     (Stopwatch_Tick1ms level s).g_state = SW_RUNNING ∨
     (Stopwatch_Tick1ms level s).g_state = SW_DONE →
      (Stopwatch_Tick1ms level s).g_pause_blink_ms = 0 ∧
      (Stopwatch_Tick1ms level s).g_pause_show = 1) := by
  have inv := Inv_tick level s hr.inv
  have hv := inv.disp_val
  have ht := inv.tenths_le
  refine ⟨?_, ?_, ?_⟩
  · constructor
    · intro h
      by_contra c
      rw [if_neg c] at hv
      rw [hv] at h
      unfold SEVENSEG4_BLANK at h
      omega
    · intro h
      rw [hv, if_pos h]
  · intro h
    rw [hv, if_neg h]
  · intro h
    apply inv.blink_idle
    rcases h with h | h | h <;> rw [h] <;> decide

/-- Witness for C8: the first tick after startup. -/
theorem display_value_selection_witness :
    Reachable (Stopwatch_Init boot) ∧
    (¬ ((Stopwatch_Tick1ms GPIO_PIN_SET (Stopwatch_Init boot)).g_state = SW_PAUSED ∧
        (Stopwatch_Tick1ms GPIO_PIN_SET (Stopwatch_Init boot)).g_pause_show = 0) →
      (Stopwatch_Tick1ms GPIO_PIN_SET (Stopwatch_Init boot)).disp.g_disp_tenths =
        (Stopwatch_Tick1ms GPIO_PIN_SET (Stopwatch_Init boot)).g_tenths) :=
  ⟨Reachable.init boot (by decide),
   (display_value_selection GPIO_PIN_SET (Stopwatch_Init boot)
      (Reachable.init boot (by decide))).2.1⟩

/-! ## One-shot alert -/

theorem short_press_toggle_buzzer (s : Stopwatch) :
    (short_press_toggle s).g_buz_remain_ms = s.g_buz_remain_ms ∧
    (short_press_toggle s).pa6 = s.pa6 ∧
    (short_press_toggle s).g_done_latched = s.g_done_latched := by
  rw [short_press_toggle]
  split_ifs <;> exact ⟨rfl, rfl, rfl⟩

/-- A long-press block that does not fire leaves tenths, the buzzer and the
done latch alone, and leaves the state DONE if it was DONE. -/
theorem tick_long_press_quiet_frame (level : GPIO_PinState) (x : Stopwatch)
    (hq : ¬ longPressFires level x) :
    (tick_long_press level x).g_tenths = x.g_tenths ∧
    (tick_long_press level x).g_buz_remain_ms = x.g_buz_remain_ms ∧
    (tick_long_press level x).pa6 = x.pa6 ∧
    (tick_long_press level x).g_done_latched = x.g_done_latched ∧
    (x.g_state = SW_DONE → (tick_long_press level x).g_state = SW_DONE) := by
  by_cases ht : x.g_btn_tracking = 0
  · rw [tick_long_press_not_tracking level x ht]
    exact ⟨rfl, rfl, rfl, rfl, fun h => h⟩
  · cases level with
    | GPIO_PIN_RESET =>
      rw [tick_long_press_pressed_quiet x ht hq]
      split_ifs <;> exact ⟨rfl, rfl, rfl, rfl, fun h => h⟩
    | GPIO_PIN_SET =>
      by_cases hf : x.g_long_fired = 0
      · rw [tick_long_press_released_short x ht hf]
        obtain ⟨t1, _, t3⟩ := short_press_toggle_frame { x with g_btn_tracking := 0 }
        obtain ⟨u1, u2, u3⟩ := short_press_toggle_buzzer { x with g_btn_tracking := 0 }
        refine ⟨t1, u1, u2, u3, fun h => ?_⟩
        rw [t3]
        exact if_pos h
      · rw [tick_long_press_released_fired x ht hf]
        exact ⟨rfl, rfl, rfl, rfl, fun h => h⟩

theorem buzzer_tick_remain (s : Stopwatch) (h : s.g_buz_remain_ms ≤ 1000) :
    (buzzer_tick_1ms s).g_buz_remain_ms = s.g_buz_remain_ms - 1 := by
  simp only [buzzer_tick_1ms, buzzer_off]
  by_cases c : s.g_buz_remain_ms = 0
  · rw [if_pos c, c]
  · have hd := u16_dec _ c (by omega)
    rw [if_neg c, hd]
    split_ifs <;> rfl

/-- A tick in state DONE in which the long press does not fire: the state stays
DONE, tenths is unchanged and the buzzer time goes down by one (not below 0). -/
theorem tick_done_quiet (level : GPIO_PinState) (s : Stopwatch) (hs : s.g_state = SW_DONE)
    (hb : s.g_buz_remain_ms ≤ 1000) (hq : ¬ longPressFires level s) :
    (Stopwatch_Tick1ms level s).g_state = SW_DONE ∧
    (Stopwatch_Tick1ms level s).g_tenths = s.g_tenths ∧
    (Stopwatch_Tick1ms level s).g_buz_remain_ms = s.g_buz_remain_ms - 1 := by
  obtain ⟨b1, b2, _⟩ := buzzer_tick_frame s
  have hq' : ¬ longPressFires level (buzzer_tick_1ms s) :=
    fun h => hq ((longPressFires_buzzer_tick level s).mp h)
  obtain ⟨q1, q2, _, _, q5⟩ := tick_long_press_quiet_frame level _ hq'
  have x1 := q5 (b1.trans hs)
  obtain ⟨r1, r2, _, r4, _⟩ := blocks_not_running
    (tick_long_press level (buzzer_tick_1ms s)) (by rw [x1]; decide)
  rw [Stopwatch_Tick1ms]
  exact ⟨r1.trans x1, r2.trans (q1.trans b2), r4.trans (q2.trans (buzzer_tick_remain s hb))⟩

theorem Reachable_run (es : List Event) :
    ∀ s, Reachable s → Reachable (run es s) := by
  induction es with
  | nil => exact fun s h => h
  | cons e rest ih => exact fun s h => ih _ (Reachable.step e s h)

/-- From a reachable DONE state, as long as no long press fires the state stays
DONE with the same tenths and the buzzer time decreases by one per tick. -/
theorem done_run (es : List Event) :
    ∀ s, Reachable s → s.g_state = SW_DONE → NoLongPress es s →
      (run es s).g_state = SW_DONE ∧
      (run es s).g_tenths = s.g_tenths ∧
      (run es s).g_buz_remain_ms = s.g_buz_remain_ms - tickCount es := by
  induction es with
  | nil => exact fun s _ hs _ => ⟨hs, rfl, rfl⟩
  | cons e rest ih =>
    intro s hr hs hn
    cases e with
    | tick level =>
      obtain ⟨hq, hn'⟩ := hn
      obtain ⟨t1, t2, t3⟩ := tick_done_quiet level s hs hr.inv.buz_le hq
      obtain ⟨r1, r2, r3⟩ := ih _ (Reachable.step (Event.tick level) s hr) t1 hn'
      refine ⟨r1, r2.trans t2, ?_⟩
      have r3' : (run rest (Stopwatch_Tick1ms level s)).g_buz_remain_ms =
          (Stopwatch_Tick1ms level s).g_buz_remain_ms - tickCount rest := r3
      show (run rest (Stopwatch_Tick1ms level s)).g_buz_remain_ms =
        s.g_buz_remain_ms - (tickCount rest + 1)
      rw [r3', t3]
      omega
    | edgePress =>
      exact ih _ (Reachable.step Event.edgePress s hr) hs hn
    | scan =>
      exact ih _ (Reachable.step Event.scan s hr) hs hn

/-- The tick in which tenths goes from a nonzero value to 0 starts the beep. -/
theorem done_tick_starts_beep (level : GPIO_PinState) (s : Stopwatch) (hr : Reachable s)
    (h0 : s.g_tenths ≠ 0) (hz : (Stopwatch_Tick1ms level s).g_tenths = 0) :
    (Stopwatch_Tick1ms level s).g_buz_remain_ms = 1000 ∧
    (Stopwatch_Tick1ms level s).pa6 = GPIO_PIN_SET := by
  have inv := hr.inv
  have core := InvCore_long_press level _ (InvCore_buzzer_tick _ inv.core)
  obtain ⟨_, b2, _⟩ := buzzer_tick_frame s
  rw [Stopwatch_Tick1ms] at hz ⊢
  have hx : (tick_long_press level (buzzer_tick_1ms s)).g_tenths ≠ 0 := by
    by_cases hq : longPressFires level (buzzer_tick_1ms s)
    · rw [tick_long_press_fires level _ hq]
      show (1000 : Nat) ≠ 0
      decide
    · rw [(tick_long_press_quiet_frame level _ hq).1, b2]
      exact h0
  by_cases hs : (tick_long_press level (buzzer_tick_1ms s)).g_state = SW_RUNNING
  · by_cases c : u16 ((tick_long_press level (buzzer_tick_1ms s)).g_ms_accum + 1)
        < TENTH_STEP_MS
    · obtain ⟨_, r2, _⟩ := blocks_running_no_carry _ hs (Nat.pos_of_ne_zero hx) c
      rw [r2] at hz
      exact absurd hz hx
    · obtain ⟨r1, _, _, r4⟩ := blocks_running_carry _ hs (Nat.pos_of_ne_zero hx)
        (Nat.not_lt.mp c)
      rw [r1] at hz
      have hl : (tick_long_press level (buzzer_tick_1ms s)).g_done_latched = 0 := by
        by_contra hne
        have := core.latch_iff_done.mp hne
        rw [hs] at this
        cases this
      exact ⟨(r4 hz hl).1, (r4 hz hl).2.1⟩
  · obtain ⟨_, r2, _⟩ := blocks_not_running _ hs
    rw [r2] at hz
    exact absurd hz hx

theorem tick_long_press_quiet_accum (level : GPIO_PinState) (x : Stopwatch)
    (hq : ¬ longPressFires level x) :
    (tick_long_press level x).g_ms_accum = x.g_ms_accum := by
  by_cases ht : x.g_btn_tracking = 0
  · rw [tick_long_press_not_tracking level x ht]
  · cases level with
    | GPIO_PIN_RESET =>
      rw [tick_long_press_pressed_quiet x ht hq]
      split_ifs <;> rfl
    | GPIO_PIN_SET =>
      by_cases hf : x.g_long_fired = 0
      · rw [tick_long_press_released_short x ht hf]
        exact (short_press_toggle_frame { x with g_btn_tracking := 0 }).2.1
      · rw [tick_long_press_released_fired x ht hf]

/-- The tick in which tenths goes from a nonzero value to 0 started in state
RUNNING. -/
theorem done_tick_was_running (level : GPIO_PinState) (s : Stopwatch) (hr : Reachable s)
    (h0 : s.g_tenths ≠ 0) (hz : (Stopwatch_Tick1ms level s).g_tenths = 0) :
    s.g_state = SW_RUNNING := by
  by_contra hne
  have ha := hr.inv.accum_idle hne
  obtain ⟨_, b2, b3, _⟩ := buzzer_tick_frame s
  rw [Stopwatch_Tick1ms] at hz
  by_cases hq : longPressFires level (buzzer_tick_1ms s)
  · rw [tick_long_press_fires level _ hq, (after_reset _).2.1] at hz
    exact absurd hz (by decide)
  · have x2 : (tick_long_press level (buzzer_tick_1ms s)).g_tenths = s.g_tenths :=
      (tick_long_press_quiet_frame level _ hq).1.trans b2
    have x3 : (tick_long_press level (buzzer_tick_1ms s)).g_ms_accum = 0 :=
      (tick_long_press_quiet_accum level _ hq).trans (b3.trans ha)
    by_cases hs : (tick_long_press level (buzzer_tick_1ms s)).g_state = SW_RUNNING
    · obtain ⟨_, r2, _⟩ := blocks_running_no_carry _ hs
        (by rw [x2]; exact Nat.pos_of_ne_zero h0) (by rw [x3]; decide)
      rw [r2, x2] at hz
      exact h0 hz
    · obtain ⟨_, r2, _⟩ := blocks_not_running _ hs
      rw [r2, x2] at hz
      exact h0 hz

/-- C2: a tick of a reachable state in which tenths goes from nonzero to 0
starts in state RUNNING; in it the state becomes DONE and the buzzer line is
asserted; after any further sequence of ticks, button edges and display ticks
in which no long press fires, the buzzer line is asserted exactly when the
sequence holds fewer than 1000 stopwatch ticks, and the state is still DONE
with tenths 0. -/
theorem one_shot_alert (level : GPIO_PinState) (s : Stopwatch) (hr : Reachable s)
    (h0 : s.g_tenths ≠ 0) (hz : (Stopwatch_Tick1ms level s).g_tenths = 0) :
    s.g_state = SW_RUNNING ∧
    (Stopwatch_Tick1ms level s).g_state = SW_DONE ∧
    (Stopwatch_Tick1ms level s).pa6 = GPIO_PIN_SET ∧
    ∀ es, NoLongPress es (Stopwatch_Tick1ms level s) →
      ((run es (Stopwatch_Tick1ms level s)).pa6 = GPIO_PIN_SET ↔ tickCount es < 1000) ∧
      (run es (Stopwatch_Tick1ms level s)).g_state = SW_DONE ∧
      (run es (Stopwatch_Tick1ms level s)).g_tenths = 0 := by
  have hr' : Reachable (Stopwatch_Tick1ms level s) := Reachable.step (Event.tick level) s hr
  have hd : (Stopwatch_Tick1ms level s).g_state = SW_DONE := hr'.inv.done_iff_zero.mpr hz
  obtain ⟨hb, hp⟩ := done_tick_starts_beep level s hr h0 hz
  refine ⟨done_tick_was_running level s hr h0 hz, hd, hp, fun es hn => ?_⟩
  obtain ⟨r1, r2, r3⟩ := done_run es _ hr' hd hn
  refine ⟨?_, r1, r2.trans hz⟩
  rw [(Reachable_run es _ hr').inv.buz_pin, r3, hb]
  omega

theorem lastTenth_facts :
    Reachable lastTenth ∧ lastTenth.g_tenths = 1 ∧
    (Stopwatch_Tick1ms GPIO_PIN_SET lastTenth).g_tenths = 0 := by
  have hs : runningAtStart.g_state = SW_RUNNING := by decide
  have ht : runningAtStart.g_tenths = 1000 := by decide
  have ha : runningAtStart.g_ms_accum = 1 := by decide
  have hk : runningAtStart.g_btn_tracking = 0 := by decide
  have c := countdown_state 1000 1 runningAtStart (fun _ => GPIO_PIN_SET)
    (by omega) (by omega) (by omega) hs ht ha hk
  refine ⟨Reachable_tickSeq _ _ runningAtStart_reachable _, ?_, ?_⟩
  · exact (c 99998 (by omega)).2.1.trans (by omega)
  · have e := tickSeq_succ (fun _ => GPIO_PIN_SET) 99998 runningAtStart
    have c2 := (c (99998 + 1) (by omega)).2.1
    rw [e] at c2
    exact c2.trans (by omega)

/-- Witness for C2: the countdown started at startup and left alone reaches 0
in its 100 000th tick. -/
theorem one_shot_alert_witness :
    Reachable lastTenth ∧ lastTenth.g_tenths ≠ 0 ∧
    (Stopwatch_Tick1ms GPIO_PIN_SET lastTenth).g_tenths = 0 ∧
    (Stopwatch_Tick1ms GPIO_PIN_SET lastTenth).g_state = SW_DONE ∧
    (Stopwatch_Tick1ms GPIO_PIN_SET lastTenth).pa6 = GPIO_PIN_SET :=
  ⟨lastTenth_facts.1, by rw [lastTenth_facts.2.1]; decide, lastTenth_facts.2.2,
   (one_shot_alert GPIO_PIN_SET lastTenth lastTenth_facts.1
      (by rw [lastTenth_facts.2.1]; decide) lastTenth_facts.2.2).2.1,
   (one_shot_alert GPIO_PIN_SET lastTenth lastTenth_facts.1
      (by rw [lastTenth_facts.2.1]; decide) lastTenth_facts.2.2).2.2.1⟩

/-! ## Blanking, clamping and the scan cursor -/

theorem scanSeq_g_disp_tenths (n : Nat) (d : SevenSeg4) :
    (scanSeq n d).g_disp_tenths = d.g_disp_tenths := by
  induction n with
  | zero => rfl
  | succ n ih =>
    show (SevenSeg4_Tick1ms (scanSeq n d)).g_disp_tenths = _
    rw [scan_g_disp_tenths, ih]

/-- At cursor 0 a display tick writes the frame of the stored value. -/
theorem tick_rebuild (d : SevenSeg4) (h0 : d.scan_idx = 0) :
    (SevenSeg4_Tick1ms d).disp_buf = rebuilt_frame d.g_disp_tenths := by
  rw [SevenSeg4_Tick1ms]
  simp only [scan_step_disp_buf, if_pos h0]
  unfold rebuilt_frame
  split_ifs <;> rfl

/-- C11: whatever the stored value and the frame buffer were, after
`SevenSeg4_SetTenths(BLANK)` a display tick at cursor 0 (with any number of
display ticks before it) sets all four frame-buffer entries to 0x00; after
`SevenSeg4_SetTenths(x)` with `x ≤ 1000` a display tick at cursor 0 sets the
frame buffer to the digits of `x`. -/
theorem blanking_and_restore :
    (∀ (d : SevenSeg4) (n : Nat),
      (scanSeq n (SevenSeg4_SetTenths SEVENSEG4_BLANK d)).scan_idx = 0 →
      (SevenSeg4_Tick1ms (scanSeq n (SevenSeg4_SetTenths SEVENSEG4_BLANK d))).disp_buf =
        { b0 := 0x00, b1 := 0x00, b2 := 0x00, b3 := 0x00 }) ∧
    (∀ (x : Nat) (d : SevenSeg4) (n : Nat), x ≤ 1000 →
      (scanSeq n (SevenSeg4_SetTenths x d)).scan_idx = 0 →
      (SevenSeg4_Tick1ms (scanSeq n (SevenSeg4_SetTenths x d))).disp_buf =
        { b0 := seg_lut.getD ((x / 1000) % 10 + 1) 0
          b1 := seg_lut.getD ((x / 100) % 10 + 1) 0
          b2 := seg_lut.getD ((x / 10) % 10 + 1) 0 ||| 0x80
          b3 := seg_lut.getD (x % 10 + 1) 0 }) := by
  constructor
  · intro d n h0
    rw [tick_rebuild _ h0, scanSeq_g_disp_tenths, SetTenths_blank]
    rfl
  · intro x d n hx h0
    rw [tick_rebuild _ h0, scanSeq_g_disp_tenths, SetTenths_val x d hx]
    unfold rebuilt_frame
    rw [if_neg]
    unfold SEVENSEG4_BLANK
    omega

/-- Witness for C11: blanking and restoring 42 right after startup. -/
theorem blanking_and_restore_witness :
    (scanSeq 0 (SevenSeg4_SetTenths SEVENSEG4_BLANK boot.disp)).scan_idx = 0 ∧
    (SevenSeg4_Tick1ms (scanSeq 0 (SevenSeg4_SetTenths SEVENSEG4_BLANK boot.disp))).disp_buf =
      { b0 := 0x00, b1 := 0x00, b2 := 0x00, b3 := 0x00 } ∧
    (42 : Nat) ≤ 1000 ∧
    (SevenSeg4_Tick1ms (scanSeq 0 (SevenSeg4_SetTenths 42 boot.disp))).disp_buf =
      { b0 := seg_lut.getD ((42 / 1000) % 10 + 1) 0
        b1 := seg_lut.getD ((42 / 100) % 10 + 1) 0
        b2 := seg_lut.getD ((42 / 10) % 10 + 1) 0 ||| 0x80
        b3 := seg_lut.getD (42 % 10 + 1) 0 } :=
  ⟨rfl, blanking_and_restore.1 boot.disp 0 rfl, by decide,
   blanking_and_restore.2 42 boot.disp 0 (by decide) rfl⟩

theorem tick_scan_idx (d : SevenSeg4) :
    (SevenSeg4_Tick1ms d).scan_idx = (d.scan_idx + 1) &&& 0x03 := by
  simp only [SevenSeg4_Tick1ms, display_scan_step, digit_on, set_segments_from_pattern,
    set_segments_all_off, digits_all_off, update_display_from_tenths]
  split_ifs <;> split <;> rfl

theorem cursor_step (c : Nat) (h : c < 4) : (c + 1) &&& 0x03 = (c + 1) % 4 := by
  interval_cases c <;> rfl

theorem tick_keeps_buf (d : SevenSeg4) (h : d.scan_idx ≠ 0) :
    (SevenSeg4_Tick1ms d).disp_buf = d.disp_buf := by
  rw [SevenSeg4_Tick1ms]
  simp only [scan_step_disp_buf, if_neg h]

theorem set_tenths_frame (v : Nat) (d : SevenSeg4) :
    (SevenSeg4_SetTenths v d).disp_buf = d.disp_buf ∧
    (SevenSeg4_SetTenths v d).scan_idx = d.scan_idx := by
  simp only [SevenSeg4_SetTenths]
  split_ifs <;> exact ⟨rfl, rfl⟩

theorem scanSeq_cursor (d : SevenSeg4) (n : Nat) :
    (scanSeq n (SevenSeg4_Init d)).scan_idx = n % 4 := by
  induction n with
  | zero => rfl
  | succ n ih =>
    show (SevenSeg4_Tick1ms (scanSeq n (SevenSeg4_Init d))).scan_idx = _
    rw [tick_scan_idx, ih, cursor_step _ (Nat.mod_lt _ (by decide))]
    omega

/-- Calls made while the cursor stays away from 0 leave the frame buffer. -/
theorem dispRun_keeps_buf (cs : List DispCall) :
    ∀ e : SevenSeg4, (dispTicks cs = 0 ∨ (1 ≤ e.scan_idx ∧ e.scan_idx + dispTicks cs ≤ 4)) →
      (dispRun cs e).disp_buf = e.disp_buf := by
  induction cs with
  | nil => exact fun e _ => rfl
  | cons c rest ih =>
    intro e h
    cases c with
    | tick =>
      have h' : 1 ≤ e.scan_idx ∧ e.scan_idx + (dispTicks rest + 1) ≤ 4 := by
        rcases h with h | h
        · exact absurd h (Nat.succ_ne_zero _)
        · exact h
      have hc : (SevenSeg4_Tick1ms e).scan_idx = (e.scan_idx + 1) % 4 := by
        rw [tick_scan_idx, cursor_step _ (by omega)]
      show (dispRun rest (SevenSeg4_Tick1ms e)).disp_buf = e.disp_buf
      rw [ih (SevenSeg4_Tick1ms e) (by rw [hc]; omega), tick_keeps_buf e (by omega)]
    | setTenths v =>
      obtain ⟨f1, f2⟩ := set_tenths_frame v e
      show (dispRun rest (SevenSeg4_SetTenths v e)).disp_buf = e.disp_buf
      rw [ih (SevenSeg4_SetTenths v e) (by rw [f2]; exact h), f1]

/-- C12: a display tick takes the cursor `c` in `0..3` to `(c+1) mod 4`, so `n`
ticks after `SevenSeg4_Init` the cursor is `n mod 4`; a tick started with the
cursor not 0 leaves the frame buffer unchanged; `SevenSeg4_SetTenths` changes
neither the frame buffer nor the cursor; hence after the tick at cursor 0,
through any calls holding at most three further ticks, the frame buffer is the
frame of the value that was stored when the tick at cursor 0 ran. -/
theorem scan_cursor_and_buffer :
    (∀ d : SevenSeg4, d.scan_idx < 4 →
      (SevenSeg4_Tick1ms d).scan_idx = (d.scan_idx + 1) % 4) ∧
    (∀ (d : SevenSeg4) (n : Nat), (scanSeq n (SevenSeg4_Init d)).scan_idx = n % 4) ∧
    (∀ d : SevenSeg4, d.scan_idx ≠ 0 → (SevenSeg4_Tick1ms d).disp_buf = d.disp_buf) ∧
    (∀ (v : Nat) (d : SevenSeg4),
      (SevenSeg4_SetTenths v d).disp_buf = d.disp_buf ∧
      (SevenSeg4_SetTenths v d).scan_idx = d.scan_idx) ∧
    (∀ (d : SevenSeg4) (cs : List DispCall), d.scan_idx = 0 → dispTicks cs ≤ 3 →
      (dispRun cs (SevenSeg4_Tick1ms d)).disp_buf = rebuilt_frame d.g_disp_tenths) := by
  refine ⟨fun d h => ?_, scanSeq_cursor, tick_keeps_buf, set_tenths_frame, ?_⟩
  · rw [tick_scan_idx, cursor_step _ h]
  · intro d cs h0 hn
    have hc : (SevenSeg4_Tick1ms d).scan_idx = 1 := by
      rw [tick_scan_idx, h0]; rfl
    rw [dispRun_keeps_buf cs _ (Or.inr (by rw [hc]; omega)), tick_rebuild d h0]

/-- Witness for C12: right after `SevenSeg4_Init`, a tick, a new value, two more
ticks. -/
theorem scan_cursor_and_buffer_witness :
    (SevenSeg4_Init boot.disp).scan_idx = 0 ∧
    dispTicks [DispCall.setTenths 42, DispCall.tick, DispCall.tick] ≤ 3 ∧
    (dispRun [DispCall.setTenths 42, DispCall.tick, DispCall.tick]
      (SevenSeg4_Tick1ms (SevenSeg4_Init boot.disp))).disp_buf =
        rebuilt_frame (SevenSeg4_Init boot.disp).g_disp_tenths :=
  ⟨rfl, by decide,
   scan_cursor_and_buffer.2.2.2.2 (SevenSeg4_Init boot.disp)
     [DispCall.setTenths 42, DispCall.tick, DispCall.tick] rfl (by decide)⟩

/-- C13: for every `v`, after `SevenSeg4_SetTenths(v)` the stored display value
is BLANK when `v = 0xFFFF` and `min v 1000` otherwise, so it lies in
`[0,1000]` or is BLANK; the call leaves the frame buffer, the cursor and all
twelve output lines as they were. -/
theorem set_tenths_clamps (v : Nat) (d : SevenSeg4) :
    (v = 0xFFFF → (SevenSeg4_SetTenths v d).g_disp_tenths = SEVENSEG4_BLANK) ∧
    (v ≠ 0xFFFF → (SevenSeg4_SetTenths v d).g_disp_tenths = min v 1000) ∧
    ((SevenSeg4_SetTenths v d).g_disp_tenths ≤ 1000 ∨
      (SevenSeg4_SetTenths v d).g_disp_tenths = SEVENSEG4_BLANK) ∧
    SevenSeg4_SetTenths v d =
      { d with g_disp_tenths := (SevenSeg4_SetTenths v d).g_disp_tenths } ∧
    (SevenSeg4_SetTenths v d).disp_buf = d.disp_buf ∧
    (SevenSeg4_SetTenths v d).scan_idx = d.scan_idx ∧
    (∀ i, digit_line (SevenSeg4_SetTenths v d) i = digit_line d i) ∧
    (∀ i, seg_line (SevenSeg4_SetTenths v d) i = seg_line d i) := by
  have hval : (v = 0xFFFF → (SevenSeg4_SetTenths v d).g_disp_tenths = SEVENSEG4_BLANK) ∧
      (v ≠ 0xFFFF → (SevenSeg4_SetTenths v d).g_disp_tenths = min v 1000) := by
    simp only [SevenSeg4_SetTenths, SEVENSEG4_BLANK]
    constructor
    · intro h; rw [if_pos h]
    · intro h; rw [if_neg h]
      split_ifs with c
      · exact (Nat.min_eq_right (Nat.le_of_lt c)).symm
      · exact (Nat.min_eq_left (Nat.not_lt.mp c)).symm
  have hframe : SevenSeg4_SetTenths v d =
      { d with g_disp_tenths := (SevenSeg4_SetTenths v d).g_disp_tenths } := by
    simp only [SevenSeg4_SetTenths]
    split_ifs <;> rfl
  refine ⟨hval.1, hval.2, ?_, hframe, ?_, ?_, ?_, ?_⟩
  · by_cases c : v = 0xFFFF
    · exact Or.inr (hval.1 c)
    · left; rw [hval.2 c]; exact Nat.min_le_right _ _
  · rw [hframe]
  · rw [hframe]
  · intro i; rw [hframe]; rfl
  · intro i; rw [hframe]; rfl

/-- Witness for C13: the values 1234 and `0xFFFF`. -/
theorem set_tenths_clamps_witness :
    (1234 : Nat) ≠ 0xFFFF ∧
    (SevenSeg4_SetTenths 1234 boot.disp).g_disp_tenths = min 1234 1000 ∧
    (SevenSeg4_SetTenths 0xFFFF boot.disp).g_disp_tenths = SEVENSEG4_BLANK :=
  ⟨by decide, (set_tenths_clamps 1234 boot.disp).2.1 (by decide),
   (set_tenths_clamps 0xFFFF boot.disp).1 rfl⟩

/-! ## Buzzer -/

/-- C15: in every reachable state the buzzer line is asserted exactly when the
remaining-ms counter is nonzero; `buzzer_beep_start(0)` changes nothing, and
`buzzer_tick_1ms` with no time remaining changes nothing. -/
theorem buzzer_tracks_timer :
    (∀ s : Stopwatch, Reachable s → (s.pa6 = GPIO_PIN_SET ↔ s.g_buz_remain_ms ≠ 0)) ∧
    (∀ s : Stopwatch, buzzer_beep_start 0 s = s) ∧
    (∀ s : Stopwatch, s.g_buz_remain_ms = 0 → buzzer_tick_1ms s = s) ∧
    (∀ s : Stopwatch, s.g_buz_remain_ms = 0 →
      buzzer_tick_1ms (buzzer_tick_1ms s) = buzzer_tick_1ms s) := by
  have h3 : ∀ s : Stopwatch, s.g_buz_remain_ms = 0 → buzzer_tick_1ms s = s := by
    intro s h
    rw [buzzer_tick_1ms, if_pos h]
  refine ⟨fun s hr => hr.inv.buz_pin, fun s => rfl, h3, ?_⟩
  intro s h
  rw [h3 s h, h3 s h]

/-- Witness for C15: the state right after startup. -/
theorem buzzer_tracks_timer_witness :
    Reachable (Stopwatch_Init boot) ∧
    ((Stopwatch_Init boot).pa6 = GPIO_PIN_SET ↔ (Stopwatch_Init boot).g_buz_remain_ms ≠ 0) ∧
    (Stopwatch_Init boot).g_buz_remain_ms = 0 ∧
    buzzer_tick_1ms (Stopwatch_Init boot) = Stopwatch_Init boot :=
  ⟨Reachable.init boot (by decide),
   buzzer_tracks_timer.1 (Stopwatch_Init boot) (Reachable.init boot (by decide)),
   rfl, buzzer_tracks_timer.2.2.1 (Stopwatch_Init boot) rfl⟩

/-! ## One digit per scan step -/

theorem seg_level_lit (pat mask : Nat) :
    seg_level pat mask = GPIO_PIN_RESET ↔ pat &&& mask ≠ 0 := by
  unfold seg_level
  split_ifs with h
  · exact ⟨fun _ => h, fun _ => rfl⟩
  · exact ⟨fun e => (by cases e), fun e => absurd e h⟩

/-- Output lines after one scan step started with the cursor at `c < 4`. -/
theorem scan_step_lines (e : SevenSeg4) (c : Nat) (hc : e.scan_idx = c) (h4 : c < 4) :
    (∀ i, i < 4 → (digit_line (display_scan_step e) i = GPIO_PIN_SET ↔ i = c)) ∧
    (∀ i, i < 8 → (seg_line (display_scan_step e) i = GPIO_PIN_RESET ↔
      e.disp_buf.get c &&& 2 ^ i ≠ 0)) := by
  constructor
  · intro i hi
    simp only [display_scan_step, set_segments_from_pattern, set_segments_all_off,
      digits_all_off, hc]
    interval_cases c <;> interval_cases i <;> simp [digit_on, digit_line]
  · intro i hi
    simp only [display_scan_step, set_segments_from_pattern, set_segments_all_off,
      digits_all_off, hc]
    interval_cases c <;> interval_cases i <;>
      simp only [digit_on, seg_line, seg_level_lit] <;> rfl

theorem tick_pre_scan (d : SevenSeg4) :
    ∃ e : SevenSeg4, SevenSeg4_Tick1ms d = display_scan_step e ∧
      e.scan_idx = d.scan_idx ∧ e.disp_buf = (SevenSeg4_Tick1ms d).disp_buf := by
  refine ⟨if d.scan_idx = 0 then
      (if d.g_disp_tenths = SEVENSEG4_BLANK then
        { d with disp_buf :=
            { b0 := seg_lut.getD 0 0, b1 := seg_lut.getD 0 0,
              b2 := seg_lut.getD 0 0, b3 := seg_lut.getD 0 0 } }
      else update_display_from_tenths d.g_disp_tenths d)
    else d, rfl, ?_, ?_⟩
  · split_ifs <;> rfl
  · rw [SevenSeg4_Tick1ms]
    simp only [scan_step_disp_buf]

theorem tick_lines (d : SevenSeg4) (c : Nat) (hc : d.scan_idx = c) (h4 : c < 4) :
    (∀ i, i < 4 → (digit_line (SevenSeg4_Tick1ms d) i = GPIO_PIN_SET ↔ i = c)) ∧
    (∀ i, i < 8 → (seg_line (SevenSeg4_Tick1ms d) i = GPIO_PIN_RESET ↔
      (SevenSeg4_Tick1ms d).disp_buf.get c &&& 2 ^ i ≠ 0)) := by
  obtain ⟨e, h1, h2, h3⟩ := tick_pre_scan d
  obtain ⟨l1, l2⟩ := scan_step_lines e c (h2.trans hc) h4
  rw [← h3, h1]
  exact ⟨l1, l2⟩

theorem scanSeq_cursor_from (d : SevenSeg4) (c : Nat) (hc : d.scan_idx = c) (h4 : c < 4)
    (j : Nat) : (scanSeq j d).scan_idx = (c + j) % 4 := by
  induction j with
  | zero =>
    show d.scan_idx = _
    rw [hc]; omega
  | succ j ih =>
    show (SevenSeg4_Tick1ms (scanSeq j d)).scan_idx = _
    rw [tick_scan_idx, ih, cursor_step _ (Nat.mod_lt _ (by decide))]
    omega

/-- C16: for a cursor `c` in `0..3`, at the end of a display tick digit-enable
line `i` is asserted exactly when `i = c`, and segment line `i` (`0..7`, lit =
LOW) is at its lit level exactly when bit `i` of frame-buffer entry `c` is set;
in four consecutive ticks, tick `j + 1` enables digit `(c + j) mod 4` alone, so
each of the four digits is enabled in exactly one of them. -/
theorem one_digit_per_scan_step (d : SevenSeg4) (c : Nat) (hc : d.scan_idx = c)
    (h4 : c < 4) :
    (∀ i, i < 4 → (digit_line (SevenSeg4_Tick1ms d) i = GPIO_PIN_SET ↔ i = c)) ∧
    (∀ i, i < 8 → (seg_line (SevenSeg4_Tick1ms d) i = GPIO_PIN_RESET ↔
      (SevenSeg4_Tick1ms d).disp_buf.get c &&& 2 ^ i ≠ 0)) ∧
    (∀ j, j < 4 → ∀ i, i < 4 →
      (digit_line (scanSeq (j + 1) d) i = GPIO_PIN_SET ↔ i = (c + j) % 4)) ∧
    (∀ p, p < 4 → ∃ j, j < 4 ∧ digit_line (scanSeq (j + 1) d) p = GPIO_PIN_SET ∧
      ∀ j', j' < 4 → digit_line (scanSeq (j' + 1) d) p = GPIO_PIN_SET → j' = j) := by
  obtain ⟨l1, l2⟩ := tick_lines d c hc h4
  have l3 : ∀ j, j < 4 → ∀ i, i < 4 →
      (digit_line (scanSeq (j + 1) d) i = GPIO_PIN_SET ↔ i = (c + j) % 4) := by
    intro j _ i hi
    exact (tick_lines (scanSeq j d) ((c + j) % 4) (scanSeq_cursor_from d c hc h4 j)
      (Nat.mod_lt _ (by decide))).1 i hi
  refine ⟨l1, l2, l3, ?_⟩
  intro p hp
  refine ⟨(p + 4 - c) % 4, Nat.mod_lt _ (by decide), ?_, ?_⟩
  · rw [l3 _ (Nat.mod_lt _ (by decide)) p hp]
    omega
  · intro j' hj' h
    rw [l3 j' hj' p hp] at h
    omega

/-- Witness for C16: the first display tick after `SevenSeg4_Init`. -/
theorem one_digit_per_scan_step_witness :
    (SevenSeg4_Init boot.disp).scan_idx = 0 ∧ (0 : Nat) < 4 ∧
    (∀ i, i < 4 →
      (digit_line (SevenSeg4_Tick1ms (SevenSeg4_Init boot.disp)) i = GPIO_PIN_SET ↔ i = 0)) :=
  ⟨rfl, by decide,
   (one_digit_per_scan_step (SevenSeg4_Init boot.disp) 0 rfl (by decide)).1⟩

/-! ## Rendering is total and injective -/

theorem seg_lut_injective :
    ∀ i, i < 10 → ∀ j, j < 10 → seg_lut.getD (i + 1) 0 = seg_lut.getD (j + 1) 0 → i = j := by
  decide

theorem seg_lut_nonzero : ∀ i, i < 10 → seg_lut.getD (i + 1) 0 ≠ 0 := by
  decide

theorem rebuilt_frame_numeric (t : Nat) (h : t ≤ 1000) :
    rebuilt_frame t =
      { b0 := seg_lut.getD ((t / 1000) % 10 + 1) 0
        b1 := seg_lut.getD ((t / 100) % 10 + 1) 0
        b2 := seg_lut.getD ((t / 10) % 10 + 1) 0 ||| 0x80
        b3 := seg_lut.getD (t % 10 + 1) 0 } := by
  unfold rebuilt_frame
  rw [if_neg]
  unfold SEVENSEG4_BLANK
  omega

theorem rebuilt_frame_injective (t1 t2 : Nat) (h1 : t1 ≤ 1000) (h2 : t2 ≤ 1000)
    (h : rebuilt_frame t1 = rebuilt_frame t2) : t1 = t2 := by
  rw [rebuilt_frame_numeric t1 h1, rebuilt_frame_numeric t2 h2] at h
  injection h with e0 e1 e2 e3
  have m : ∀ t : Nat, t % 10 < 10 := fun t => Nat.mod_lt _ (by decide)
  have d0 := seg_lut_injective _ (m _) _ (m _) e0
  have d1 := seg_lut_injective _ (m _) _ (m _) e1
  have d3 := seg_lut_injective _ (m _) _ (m _) e3
  have e2' : seg_lut.getD ((t1 / 10) % 10 + 1) 0 = seg_lut.getD ((t2 / 10) % 10 + 1) 0 := by
    rw [← (seg_lut_digit_bits _ (m (t1 / 10))).2.2, ← (seg_lut_digit_bits _ (m (t2 / 10))).2.2,
      e2]
  have d2 := seg_lut_injective _ (m _) _ (m _) e2'
  omega

/-- C20: for every `t` the four look-up indices of `update_display_from_tenths`
lie in `1..10`, inside `seg_lut` and off its OFF entry; the ten digit patterns
`seg_lut[1..10]` are pairwise distinct, nonzero and have bit `0x80` clear;
hence two values in `[0,1000]` whose display ticks at cursor 0 leave equal
frame buffers are equal, and no value in `[0,1000]` gives the all-off frame
that the BLANK sentinel gives. -/
theorem rendering_total_injective :
    (∀ t : Nat,
      (1 ≤ (t / 1000) % 10 + 1 ∧ (t / 1000) % 10 + 1 ≤ 10) ∧
      (1 ≤ (t / 100) % 10 + 1 ∧ (t / 100) % 10 + 1 ≤ 10) ∧
      (1 ≤ (t / 10) % 10 + 1 ∧ (t / 10) % 10 + 1 ≤ 10) ∧
      (1 ≤ t % 10 + 1 ∧ t % 10 + 1 ≤ 10)) ∧
    seg_lut.length = 11 ∧
    (∀ i j, 1 ≤ i → i ≤ 10 → 1 ≤ j → j ≤ 10 →
      seg_lut.getD i 0 = seg_lut.getD j 0 → i = j) ∧
    (∀ i, 1 ≤ i → i ≤ 10 → seg_lut.getD i 0 ≠ 0 ∧ seg_lut.getD i 0 &&& 0x80 = 0) ∧
    (∀ (t : Nat) (d : SevenSeg4),
      (update_display_from_tenths t d).disp_buf =
        { b0 := seg_lut.getD ((t / 1000) % 10 + 1) 0
          b1 := seg_lut.getD ((t / 100) % 10 + 1) 0
          b2 := seg_lut.getD ((t / 10) % 10 + 1) 0 ||| 0x80
          b3 := seg_lut.getD (t % 10 + 1) 0 }) ∧
    (∀ (d1 d2 : SevenSeg4), d1.scan_idx = 0 → d2.scan_idx = 0 →
      d1.g_disp_tenths ≤ 1000 → d2.g_disp_tenths ≤ 1000 →
      (SevenSeg4_Tick1ms d1).disp_buf = (SevenSeg4_Tick1ms d2).disp_buf →
      d1.g_disp_tenths = d2.g_disp_tenths) ∧
    (∀ (d1 d2 : SevenSeg4), d1.scan_idx = 0 → d2.scan_idx = 0 →
      d1.g_disp_tenths ≤ 1000 → d2.g_disp_tenths = SEVENSEG4_BLANK →
      (SevenSeg4_Tick1ms d2).disp_buf = { b0 := 0x00, b1 := 0x00, b2 := 0x00, b3 := 0x00 } ∧
      (SevenSeg4_Tick1ms d1).disp_buf ≠ (SevenSeg4_Tick1ms d2).disp_buf) := by
  refine ⟨fun t => ?_, rfl, ?_, ?_, fun t d => rfl, ?_, ?_⟩
  · have m : ∀ t : Nat, t % 10 < 10 := fun t => Nat.mod_lt _ (by decide)
    have a := m (t / 1000)
    have b := m (t / 100)
    have c := m (t / 10)
    have e := m t
    omega
  · intro i j hi hi' hj hj' h
    have e1 : i = (i - 1) + 1 := by omega
    have e2 : j = (j - 1) + 1 := by omega
    rw [e1, e2] at h
    have := seg_lut_injective (i - 1) (by omega) (j - 1) (by omega) h
    omega
  · intro i hi hi'
    have e1 : i = (i - 1) + 1 := by omega
    rw [e1]
    exact ⟨seg_lut_nonzero (i - 1) (by omega), (seg_lut_digit_bits (i - 1) (by omega)).1⟩
  · intro d1 d2 h1 h2 t1 t2 h
    rw [tick_rebuild d1 h1, tick_rebuild d2 h2] at h
    exact rebuilt_frame_injective _ _ t1 t2 h
  · intro d1 d2 h1 h2 t1 t2
    rw [tick_rebuild d1 h1, tick_rebuild d2 h2, t2, rebuilt_frame_numeric _ t1]
    refine ⟨rfl, fun h => ?_⟩
    injection h with e0 _ _ _
    exact seg_lut_nonzero _ (Nat.mod_lt _ (by decide)) e0

/-- Witness for C20: the values 999 and 1000 stored at cursor 0. -/
theorem rendering_total_injective_witness :
    ((SevenSeg4_Tick1ms { boot.disp with g_disp_tenths := 999 }).disp_buf =
      (SevenSeg4_Tick1ms { boot.disp with g_disp_tenths := 1000 }).disp_buf →
        (999 : Nat) = 1000) ∧
    (SevenSeg4_Tick1ms { boot.disp with g_disp_tenths := 999 }).disp_buf ≠
      (SevenSeg4_Tick1ms { boot.disp with g_disp_tenths := SEVENSEG4_BLANK }).disp_buf :=
  ⟨rendering_total_injective.2.2.2.2.2.1 { boot.disp with g_disp_tenths := 999 }
     { boot.disp with g_disp_tenths := 1000 } rfl rfl (by decide) (by decide),
   (rendering_total_injective.2.2.2.2.2.2 { boot.disp with g_disp_tenths := 999 }
     { boot.disp with g_disp_tenths := SEVENSEG4_BLANK } rfl rfl (by decide) rfl).2⟩

/-! ## Tenths, the done latch and the counters -/

/-- How one tick of a reachable state changes tenths. -/
theorem tick_tenths_cases (level : GPIO_PinState) (s : Stopwatch) (hr : Reachable s) :
    (Stopwatch_Tick1ms level s).g_tenths = s.g_tenths ∨
    (longPressFires level s ∧ (Stopwatch_Tick1ms level s).g_tenths = 1000) ∨
    (s.g_state = SW_RUNNING ∧ s.g_tenths ≠ 0 ∧
      (Stopwatch_Tick1ms level s).g_tenths = s.g_tenths - 1) := by
  have inv := hr.inv
  have core := InvCore_long_press level _ (InvCore_buzzer_tick _ inv.core)
  obtain ⟨_, b2, b3, _⟩ := buzzer_tick_frame s
  rw [Stopwatch_Tick1ms]
  by_cases hq : longPressFires level (buzzer_tick_1ms s)
  · right; left
    refine ⟨(longPressFires_buzzer_tick level s).mp hq, ?_⟩
    rw [tick_long_press_fires level _ hq]
    exact (after_reset _).2.1
  · have x2 : (tick_long_press level (buzzer_tick_1ms s)).g_tenths = s.g_tenths :=
      (tick_long_press_quiet_frame level _ hq).1.trans b2
    have x3 : (tick_long_press level (buzzer_tick_1ms s)).g_ms_accum = s.g_ms_accum :=
      (tick_long_press_quiet_accum level _ hq).trans b3
    by_cases hs : (tick_long_press level (buzzer_tick_1ms s)).g_state = SW_RUNNING
    · have h0 : s.g_tenths ≠ 0 := by
        intro h
        have := core.done_iff_zero.mpr (x2.trans h)
        rw [hs] at this
        cases this
      by_cases c : u16 ((tick_long_press level (buzzer_tick_1ms s)).g_ms_accum + 1)
          < TENTH_STEP_MS
      · left
        exact (blocks_running_no_carry _ hs (by rw [x2]; exact Nat.pos_of_ne_zero h0) c).2.1.trans
          x2
      · right; right
        have hrun : s.g_state = SW_RUNNING := by
          by_contra hne
          apply c
          rw [x3, inv.accum_idle hne]
          decide
        refine ⟨hrun, h0, ?_⟩
        rw [(blocks_running_carry _ hs (by rw [x2]; exact Nat.pos_of_ne_zero h0)
          (Nat.not_lt.mp c)).1, x2]
        exact u16_dec _ h0 (by have := inv.tenths_le; omega)
    · left
      exact (blocks_not_running _ hs).2.1.trans x2

/-- C14: in every reachable state tenths is at most 1000; a tick of a
reachable state leaves tenths unchanged, or sets it to 1000 (in a tick where
the long press fires), or lowers it by exactly 1, the last only when the
state before the tick was RUNNING. -/
theorem tenths_invariant :
    (∀ s : Stopwatch, Reachable s → s.g_tenths ≤ 1000) ∧
    (∀ (level : GPIO_PinState) (s : Stopwatch), Reachable s →
      (Stopwatch_Tick1ms level s).g_tenths = s.g_tenths ∨
      (longPressFires level s ∧ (Stopwatch_Tick1ms level s).g_tenths = 1000) ∨
      (s.g_state = SW_RUNNING ∧ (Stopwatch_Tick1ms level s).g_tenths + 1 = s.g_tenths)) := by
  refine ⟨fun s hr => hr.inv.tenths_le, fun level s hr => ?_⟩
  rcases tick_tenths_cases level s hr with h | h | ⟨h1, h2, h3⟩
  · exact Or.inl h
  · exact Or.inr (Or.inl h)
  · right; right
    exact ⟨h1, by rw [h3]; omega⟩

/-- Witness for C14: the first tick of the countdown started at startup. -/
theorem tenths_invariant_witness :
    Reachable runningAtStart ∧ runningAtStart.g_tenths ≤ 1000 ∧
    ((Stopwatch_Tick1ms GPIO_PIN_SET runningAtStart).g_tenths = runningAtStart.g_tenths ∨
      (longPressFires GPIO_PIN_SET runningAtStart ∧
        (Stopwatch_Tick1ms GPIO_PIN_SET runningAtStart).g_tenths = 1000) ∨
      (runningAtStart.g_state = SW_RUNNING ∧
        (Stopwatch_Tick1ms GPIO_PIN_SET runningAtStart).g_tenths + 1
          = runningAtStart.g_tenths)) :=
  ⟨runningAtStart_reachable, tenths_invariant.1 runningAtStart runningAtStart_reachable,
   tenths_invariant.2 GPIO_PIN_SET runningAtStart runningAtStart_reachable⟩

/-- C19: in every reachable state, state = DONE iff tenths = 0 iff the done
latch is set; so in RUNNING tenths is at least 1; in a tick that takes tenths
from nonzero to 0 the latch was clear and the beep starts (1000 ms remaining,
line asserted, latch set); a tick leaves DONE only when the long press fires,
and neither the press edge nor the display tick changes the state. -/
theorem done_zero_latch :
    (∀ s : Stopwatch, Reachable s →
      (s.g_state = SW_DONE ↔ s.g_tenths = 0) ∧
      (s.g_tenths = 0 ↔ s.g_done_latched ≠ 0) ∧
      (s.g_state = SW_RUNNING → 1 ≤ s.g_tenths)) ∧
    (∀ (level : GPIO_PinState) (s : Stopwatch), Reachable s → s.g_tenths ≠ 0 →
      (Stopwatch_Tick1ms level s).g_tenths = 0 →
      s.g_done_latched = 0 ∧
      (Stopwatch_Tick1ms level s).g_buz_remain_ms = 1000 ∧
      (Stopwatch_Tick1ms level s).pa6 = GPIO_PIN_SET ∧
      (Stopwatch_Tick1ms level s).g_done_latched ≠ 0) ∧
    (∀ (level : GPIO_PinState) (s : Stopwatch), Reachable s → s.g_state = SW_DONE →
      (Stopwatch_Tick1ms level s).g_state ≠ SW_DONE → longPressFires level s) ∧
    (∀ s : Stopwatch, (Stopwatch_ButtonEdgePress s).g_state = s.g_state) ∧
    (∀ s : Stopwatch, (step Event.scan s).g_state = s.g_state) := by
  refine ⟨fun s hr => ?_, fun level s hr h0 hz => ?_, fun level s hr hs hn => ?_,
    fun s => rfl, fun s => rfl⟩
  · have inv := hr.inv
    refine ⟨inv.done_iff_zero, ?_, fun h => ?_⟩
    · rw [inv.latch_iff_done, inv.done_iff_zero]
    · apply Nat.pos_of_ne_zero
      intro hz
      have := inv.done_iff_zero.mpr hz
      rw [h] at this
      cases this
  · have inv := hr.inv
    have inv' := (Reachable.step (Event.tick level) s hr).inv
    obtain ⟨hb, hp⟩ := done_tick_starts_beep level s hr h0 hz
    refine ⟨?_, hb, hp, ?_⟩
    · by_contra hl
      exact h0 (inv.done_iff_zero.mp (inv.latch_iff_done.mp hl))
    · exact inv'.latch_iff_done.mpr (inv'.done_iff_zero.mpr hz)
  · by_contra hq
    exact hn (tick_done_quiet level s hs hr.inv.buz_le hq).1

/-- Witness for C19: the last tick of the countdown started at startup. -/
theorem done_zero_latch_witness :
    Reachable lastTenth ∧ lastTenth.g_tenths ≠ 0 ∧
    (Stopwatch_Tick1ms GPIO_PIN_SET lastTenth).g_tenths = 0 ∧
    lastTenth.g_done_latched = 0 ∧
    (Stopwatch_Tick1ms GPIO_PIN_SET lastTenth).g_buz_remain_ms = 1000 :=
  ⟨lastTenth_facts.1, by rw [lastTenth_facts.2.1]; decide, lastTenth_facts.2.2,
   (done_zero_latch.2.1 GPIO_PIN_SET lastTenth lastTenth_facts.1
      (by rw [lastTenth_facts.2.1]; decide) lastTenth_facts.2.2).1,
   (done_zero_latch.2.1 GPIO_PIN_SET lastTenth lastTenth_facts.1
      (by rw [lastTenth_facts.2.1]; decide) lastTenth_facts.2.2).2.1⟩

/-- The hold counter after a tick: incremented (below 0xFFFF only) when a press
is tracked and the button reads pressed, unchanged otherwise. -/
theorem tick_hold (level : GPIO_PinState) (s : Stopwatch) :
    (Stopwatch_Tick1ms level s).g_hold_ms =
      (if s.g_btn_tracking ≠ 0 ∧ level = GPIO_PIN_RESET ∧ s.g_hold_ms < 0xFFFF
        then u16 (s.g_hold_ms + 1) else s.g_hold_ms) := by
  obtain ⟨_, _, _, b4, b5, b6, _⟩ := buzzer_tick_frame s
  rw [(tick_tracker level s).2.2]
  by_cases ht : s.g_btn_tracking = 0
  · rw [tick_long_press_not_tracking level _ (b4.trans ht), b6, if_neg]
    exact fun h => h.1 ht
  · have hb : (buzzer_tick_1ms s).g_btn_tracking ≠ 0 := by rw [b4]; exact ht
    cases level with
    | GPIO_PIN_SET =>
      rw [if_neg (fun h => by cases h.2.1)]
      by_cases hf : (buzzer_tick_1ms s).g_long_fired = 0
      · rw [tick_long_press_released_short _ hb hf, (short_press_toggle_tracker _).2.2]
        exact b6
      · rw [tick_long_press_released_fired _ hb hf]
        exact b6
    | GPIO_PIN_RESET =>
      by_cases hq : longPressFires GPIO_PIN_RESET (buzzer_tick_1ms s)
      · rw [tick_long_press_fires _ _ hq]
        show (if (buzzer_tick_1ms s).g_hold_ms < 0xFFFF
          then { buzzer_tick_1ms s with
                  g_hold_ms := u16 ((buzzer_tick_1ms s).g_hold_ms + 1) }
          else buzzer_tick_1ms s).g_hold_ms = _
        rw [b6]
        by_cases c : s.g_hold_ms < 0xFFFF
        · rw [if_pos c, if_pos ⟨ht, rfl, c⟩]
        · rw [if_neg c, if_neg (fun h => c h.2.2)]
          exact b6
      · rw [tick_long_press_pressed_quiet _ hb hq, b6]
        by_cases c : s.g_hold_ms < 0xFFFF
        · rw [if_pos c, if_pos ⟨ht, rfl, c⟩]
        · rw [if_neg c, if_neg (fun h => c h.2.2)]
          exact b6

theorem tick_timekeeping_at_zero (y : Stopwatch) (h : y.g_tenths = 0) :
    (tick_timekeeping y).g_tenths = 0 := by
  by_cases hs : y.g_state = SW_RUNNING
  · rw [tick_timekeeping, if_pos hs, if_neg (by omega)]
    exact h
  · rw [tick_timekeeping_not_running y hs]
    exact h

/-- C18: in a reachable state the counters are within bounds (hold counter at
most 65535, ms accumulator at most 99, blink counter at most 499, buzzer time
at most 1000, tenths at most 1000), and in a tick no 16-bit increment or
decrement wraps: the hold counter stays at 65535 once there and its guarded
increment is exact; the buzzer decrement runs only at a nonzero value and is
exact; the blink increment and the unguarded ms-accumulator increment, at the
values they find when their block runs, are exact; the tenths decrement runs
only at a nonzero value and is exact. -/
theorem no_counter_wraps (level : GPIO_PinState) (s : Stopwatch) (hr : Reachable s) :
    (s.g_hold_ms ≤ 65535 ∧ s.g_ms_accum ≤ 99 ∧ s.g_pause_blink_ms ≤ 499 ∧
      s.g_buz_remain_ms ≤ 1000 ∧ s.g_tenths ≤ 1000) ∧
    (s.g_hold_ms = 65535 → (Stopwatch_Tick1ms level s).g_hold_ms = 65535) ∧
    ((Stopwatch_Tick1ms level s).g_hold_ms = s.g_hold_ms ∨
      (Stopwatch_Tick1ms level s).g_hold_ms = s.g_hold_ms + 1) ∧
    (s.g_buz_remain_ms ≠ 0 →
      (buzzer_tick_1ms s).g_buz_remain_ms + 1 = s.g_buz_remain_ms) ∧
    (s.g_buz_remain_ms = 0 → (buzzer_tick_1ms s).g_buz_remain_ms = 0) ∧
    ((tick_long_press level (buzzer_tick_1ms s)).g_pause_blink_ms ≤ 499 ∧
      u16 ((tick_long_press level (buzzer_tick_1ms s)).g_pause_blink_ms + 1) =
        (tick_long_press level (buzzer_tick_1ms s)).g_pause_blink_ms + 1) ∧
    ((tick_pause_blink (tick_long_press level (buzzer_tick_1ms s))).g_ms_accum ≤ 99 ∧
      u16 ((tick_pause_blink (tick_long_press level (buzzer_tick_1ms s))).g_ms_accum + 1) =
        (tick_pause_blink (tick_long_press level (buzzer_tick_1ms s))).g_ms_accum + 1) ∧
    ((tick_pause_blink (tick_long_press level (buzzer_tick_1ms s))).g_tenths ≠ 0 →
      u16 ((tick_pause_blink (tick_long_press level (buzzer_tick_1ms s))).g_tenths + 65535) + 1
        = (tick_pause_blink (tick_long_press level (buzzer_tick_1ms s))).g_tenths) ∧
    ((tick_pause_blink (tick_long_press level (buzzer_tick_1ms s))).g_tenths = 0 →
      (Stopwatch_Tick1ms level s).g_tenths = 0) ∧
    (Stopwatch_Tick1ms level s).g_ms_accum ≤ 99 ∧
    (Stopwatch_Tick1ms level s).g_pause_blink_ms ≤ 499 := by
  have inv := hr.inv
  have inv' := (Reachable.step (Event.tick level) s hr).inv
  have core := InvCore_long_press level _ (InvCore_buzzer_tick _ inv.core)
  have blink := (InvBlink_pause_blink _ core).core
  have hh := tick_hold level s
  refine ⟨⟨inv.hold_le, inv.accum_le, inv.blink_le, inv.buz_le, inv.tenths_le⟩,
    ?_, ?_, ?_, ?_, ⟨core.blink_le, u16_inc _ (by have := core.blink_le; omega)⟩,
    ⟨blink.accum_le, u16_inc _ (by have := blink.accum_le; omega)⟩, ?_,
    fun h => tick_timekeeping_at_zero _ h, inv'.accum_le, inv'.blink_le⟩
  · intro h
    rw [hh, if_neg]
    · exact h
    · rintro ⟨_, _, c⟩
      omega
  · rw [hh]
    split_ifs with c
    · right
      exact u16_inc _ (by omega)
    · left; rfl
  · intro h
    have := inv.buz_le
    rw [buzzer_tick_remain s this]
    omega
  · intro h
    rw [buzzer_tick_remain s inv.buz_le, h]
  · intro h
    have := blink.tenths_le
    rw [u16_dec _ h (by omega)]
    omega

/-- Witness for C18: the first tick of the countdown started at startup. -/
theorem no_counter_wraps_witness :
    Reachable runningAtStart ∧
    (runningAtStart.g_hold_ms ≤ 65535 ∧ runningAtStart.g_ms_accum ≤ 99 ∧
      runningAtStart.g_pause_blink_ms ≤ 499 ∧ runningAtStart.g_buz_remain_ms ≤ 1000 ∧
      runningAtStart.g_tenths ≤ 1000) :=
  ⟨runningAtStart_reachable,
   (no_counter_wraps GPIO_PIN_SET runningAtStart runningAtStart_reachable).1⟩

/-! ## No carry across a pause -/

theorem tickSeq_shift (lv : Nat → GPIO_PinState) (s : Stopwatch) (n : Nat) :
    tickSeq lv (1 + n) s = tickSeq (fun i => lv (1 + i)) n (tickSeq lv 1 s) := by
  induction n with
  | zero => rfl
  | succ n ih =>
    show Stopwatch_Tick1ms (lv (1 + n)) (tickSeq lv (1 + n) s) =
      Stopwatch_Tick1ms (lv (1 + n)) (tickSeq (fun i => lv (1 + i)) n (tickSeq lv 1 s))
    rw [ih]

/-- The tick in which a short press resumes a reachable paused state: the
state becomes RUNNING, tenths is unchanged, the ms accumulator is 1 and
tracking is cleared. -/
theorem resume_tick (s : Stopwatch) (hr : Reachable s)
    (hs : s.g_state = SW_PAUSED ∨ s.g_state = SW_IDLE_PAUSED)
    (ht : s.g_btn_tracking ≠ 0) (hf : s.g_long_fired = 0) :
    (Stopwatch_Tick1ms GPIO_PIN_SET s).g_state = SW_RUNNING ∧
    (Stopwatch_Tick1ms GPIO_PIN_SET s).g_tenths = s.g_tenths ∧
    (Stopwatch_Tick1ms GPIO_PIN_SET s).g_ms_accum = 1 ∧
    (Stopwatch_Tick1ms GPIO_PIN_SET s).g_btn_tracking = 0 ∧
    1 ≤ s.g_tenths := by
  have inv := hr.inv
  have h1 : s.g_state ≠ SW_RUNNING := by rcases hs with h | h <;> rw [h] <;> decide
  have h2 : s.g_state ≠ SW_DONE := by rcases hs with h | h <;> rw [h] <;> decide
  have h0 : s.g_tenths ≠ 0 := fun h => h2 (inv.done_iff_zero.mpr h)
  have ha : s.g_ms_accum = 0 := inv.accum_idle h1
  obtain ⟨b1, b2, b3, b4, b5, _⟩ := buzzer_tick_frame s
  have e2 := tick_long_press_released_short (buzzer_tick_1ms s)
    (by rw [b4]; exact ht) (by rw [b5]; exact hf)
  obtain ⟨t1, t2, t3⟩ := short_press_toggle_frame
    { buzzer_tick_1ms s with g_btn_tracking := 0 }
  have x1 : (short_press_toggle { buzzer_tick_1ms s with g_btn_tracking := 0 }).g_state
      = SW_RUNNING := by
    rw [t3]
    show (if (buzzer_tick_1ms s).g_state = SW_DONE then SW_DONE
      else if (buzzer_tick_1ms s).g_state = SW_RUNNING then SW_PAUSED else SW_RUNNING) = _
    rw [b1, if_neg h2, if_neg h1]
  have x2 : (short_press_toggle { buzzer_tick_1ms s with g_btn_tracking := 0 }).g_tenths
      = s.g_tenths := t1.trans b2
  have x3 : (short_press_toggle { buzzer_tick_1ms s with g_btn_tracking := 0 }).g_ms_accum
      = 0 := t2.trans (b3.trans ha)
  obtain ⟨r1, r2, r3, _⟩ := blocks_running_no_carry _ x1
    (by rw [x2]; exact Nat.pos_of_ne_zero h0) (by rw [x3]; decide)
  rw [x3] at r3
  rw [Stopwatch_Tick1ms, e2]
  refine ⟨r1, r2.trans x2, r3, ?_, Nat.pos_of_ne_zero h0⟩
  have := tick_released_tracking s
  rw [Stopwatch_Tick1ms, e2] at this
  exact this

/-- After the resume tick, tenths and state through tick `k ≤ 100`. -/
theorem resume_countdown (s : Stopwatch) (lv : Nat → GPIO_PinState) (hr : Reachable s)
    (hs : s.g_state = SW_PAUSED ∨ s.g_state = SW_IDLE_PAUSED)
    (ht : s.g_btn_tracking ≠ 0) (hf : s.g_long_fired = 0) (h0 : lv 0 = GPIO_PIN_SET)
    (k : Nat) (h1 : 1 ≤ k) (h2 : k ≤ 100) :
    (tickSeq lv k s).g_tenths = s.g_tenths - k / 100 ∧
    (k ≤ 99 → (tickSeq lv k s).g_state = SW_RUNNING) := by
  obtain ⟨r1, r2, r3, r4, r5⟩ := resume_tick s hr hs ht hf
  have e1 : tickSeq lv 1 s = Stopwatch_Tick1ms GPIO_PIN_SET s := by
    show Stopwatch_Tick1ms (lv 0) s = _
    rw [h0]
  have hk : k = 1 + (k - 1) := by omega
  have c := countdown_state s.g_tenths 1 (tickSeq lv 1 s) (fun i => lv (1 + i)) r5
    hr.inv.tenths_le (by decide) (by rw [e1]; exact r1) (by rw [e1]; exact r2)
    (by rw [e1]; exact r3) (by rw [e1]; exact r4) (k - 1) (by omega)
  rw [← tickSeq_shift, ← hk] at c
  obtain ⟨_, c2, _, c4⟩ := c
  refine ⟨c2, fun h => ?_⟩
  rw [c4, if_pos (by omega)]

/-- C17: a tick of a reachable state that ends in a state other than RUNNING
leaves the ms accumulator 0; in particular the tick in which a short press
pauses a RUNNING state does, whatever accumulation `a` it held.  When a
reachable paused state (PAUSED or IDLE_PAUSED, so tenths ≥ 1) is resumed by a
short press in tick 1 and no edge follows, tenths is unchanged and the state
RUNNING after each of the ticks 1..99, and the 100th tick lowers tenths by
exactly 1. -/
theorem no_carry_across_pause :
    (∀ (level : GPIO_PinState) (s : Stopwatch), Reachable s →
      (Stopwatch_Tick1ms level s).g_state ≠ SW_RUNNING →
      (Stopwatch_Tick1ms level s).g_ms_accum = 0) ∧
    (∀ (a : Nat) (r : Stopwatch), Reachable r → r.g_state = SW_RUNNING →
      r.g_ms_accum = a → r.g_btn_tracking ≠ 0 → r.g_long_fired = 0 →
      a ≤ 99 ∧
      (Stopwatch_Tick1ms GPIO_PIN_SET r).g_state = SW_PAUSED ∧
      (Stopwatch_Tick1ms GPIO_PIN_SET r).g_ms_accum = 0) ∧
    (∀ (s : Stopwatch) (lv : Nat → GPIO_PinState), Reachable s →
      (s.g_state = SW_PAUSED ∨ s.g_state = SW_IDLE_PAUSED) →
      s.g_btn_tracking ≠ 0 → s.g_long_fired = 0 → lv 0 = GPIO_PIN_SET →
      1 ≤ s.g_tenths ∧
      (∀ k, 1 ≤ k → k ≤ 99 →
        (tickSeq lv k s).g_tenths = s.g_tenths ∧ (tickSeq lv k s).g_state = SW_RUNNING) ∧
      (tickSeq lv 100 s).g_tenths + 1 = s.g_tenths) := by
  have first : ∀ (level : GPIO_PinState) (s : Stopwatch), Reachable s →
      (Stopwatch_Tick1ms level s).g_state ≠ SW_RUNNING →
      (Stopwatch_Tick1ms level s).g_ms_accum = 0 :=
    fun level s hr h => (Reachable.step (Event.tick level) s hr).inv.accum_idle h
  refine ⟨first, ?_, ?_⟩
  · intro a r hr hs ha ht hf
    obtain ⟨b1, _, _, b4, b5, _⟩ := buzzer_tick_frame r
    have e2 := tick_long_press_released_short (buzzer_tick_1ms r)
      (by rw [b4]; exact ht) (by rw [b5]; exact hf)
    obtain ⟨_, _, t3⟩ := short_press_toggle_frame
      { buzzer_tick_1ms r with g_btn_tracking := 0 }
    have x1 : (short_press_toggle { buzzer_tick_1ms r with g_btn_tracking := 0 }).g_state
        = SW_PAUSED := by
      rw [t3]
      show (if (buzzer_tick_1ms r).g_state = SW_DONE then SW_DONE
        else if (buzzer_tick_1ms r).g_state = SW_RUNNING then SW_PAUSED else SW_RUNNING) = _
      rw [b1, hs]; rfl
    have hp : (Stopwatch_Tick1ms GPIO_PIN_SET r).g_state = SW_PAUSED := by
      rw [Stopwatch_Tick1ms, e2, (blocks_not_running _ (by rw [x1]; decide)).1, x1]
    refine ⟨by rw [← ha]; exact hr.inv.accum_le, hp, first GPIO_PIN_SET r hr ?_⟩
    rw [hp]; decide
  · intro s lv hr hs ht hf h0
    refine ⟨(resume_tick s hr hs ht hf).2.2.2.2, fun k h1 h2 => ?_, ?_⟩
    · obtain ⟨c1, c2⟩ := resume_countdown s lv hr hs ht hf h0 k h1 (by omega)
      exact ⟨c1.trans (by omega), c2 h2⟩
    · have := (resume_tick s hr hs ht hf).2.2.2.2
      rw [(resume_countdown s lv hr hs ht hf h0 100 (by decide) (by decide)).1]
      omega

/-- Witness for C17: pausing the countdown started at startup. -/
theorem no_carry_across_pause_witness :
    Reachable runningPressed ∧ runningPressed.g_state = SW_RUNNING ∧
    runningPressed.g_ms_accum = 1 ∧
    (Stopwatch_Tick1ms GPIO_PIN_SET runningPressed).g_state = SW_PAUSED ∧
    (Stopwatch_Tick1ms GPIO_PIN_SET runningPressed).g_ms_accum = 0 ∧
    Reachable pausedPressed ∧ pausedPressed.g_state = SW_PAUSED ∧
    (tickSeq (fun _ => GPIO_PIN_SET) 100 pausedPressed).g_tenths + 1
      = pausedPressed.g_tenths :=
  ⟨runningPressed_reachable, by decide, by decide,
   (no_carry_across_pause.2.1 1 runningPressed runningPressed_reachable
      (by decide) (by decide) (by decide) (by decide)).2.1,
   (no_carry_across_pause.2.1 1 runningPressed runningPressed_reachable
      (by decide) (by decide) (by decide) (by decide)).2.2,
   pausedPressed_reachable, by decide,
   (no_carry_across_pause.2.2 pausedPressed (fun _ => GPIO_PIN_SET) pausedPressed_reachable
      (Or.inl (by decide)) (by decide) (by decide) rfl).2.2⟩

end NucleoStopwatch
